import Mathlib

/-!
The detector node of darknet_ros (YoloObjectDetector)

A shallow embedding of the detection pipeline of
`darknet_ros/src/YoloObjectDetector.cpp` and the properties of it that the
design document states.

Conventions of the embedding.

* `float` and `double` values are the rationals they denote. Where the code
  rounds (an assignment to a `float`, an operation on `float`s or `double`s)
  the model applies the rounding of a `FloatArith`, a parameter: `exact` does
  not round, `binary` rounds to binary32 and binary64, nearest with ties to
  even. Theorems hold for every arithmetic unless they name one.
* The pixel arithmetic of `publishInThread` and the back-projection of
  `associateDepth` are exact; values that can leave the finite range through a
  division (the camera intrinsics and the back-projected coordinates) live in
  `Fl`, the rationals extended with the two infinities and NaN, with the
  IEEE 754 rules for the special cases.
* C arrays and buffers (`roiBoxes_`, `prob`, layer outputs, the prediction
  window, the ring slots) are functions of the index, so every access the code
  makes has a value; `std::vector`s that grow are lists.
* `int` variables are integers or naturals; no computation here gets close to
  the 32-bit range for values a camera frame can produce.
-/

set_option autoImplicit false

namespace darknet_ros

/-! ## Floating-point arithmetic -/

/-- The two roundings of the machine arithmetic: to `float` and to `double`.
An operation on `float`s (on `double`s) is the exact operation followed by
`toFloat` (by `toDouble`). -/
structure FloatArith where
  toFloat : ℚ → ℚ
  toDouble : ℚ → ℚ

/-- Arithmetic without rounding. -/
def FloatArith.exact : FloatArith := { toFloat := fun q => q, toDouble := fun q => q }

/-- The rounding to `float` keeps the sign of a non-positive value and moves a
value of magnitude at most 2 by at most `eps`. -/
def FloatArith.Within (F : FloatArith) (eps : ℚ) : Prop :=
  (∀ q, q ≤ 0 → F.toFloat q ≤ 0) ∧ (∀ q, |q| ≤ 2 → |F.toFloat q - q| ≤ eps)

/-! ## Data model -/

/-- The `box` of darknet: centre and size in normalised image units. -/
structure box where
  x : ℚ
  y : ℚ
  w : ℚ
  h : ℚ

/-- The fields of darknet's `detection` that the extraction loop reads:
the box and the per-class probability array `prob`. -/
structure detection where
  bbox : box
  prob : Nat → ℚ

/-- The `RosBox_` record of the detector: a normalised box, its class, its
probability, and `num` (meaningful in element 0 only: the number of boxes). -/
structure RosBox_ where
  x : ℚ
  y : ℚ
  w : ℚ
  h : ℚ
  prob : ℚ
  num : Int
  Class : Int

/-- The state of the extraction loop in `detectInThread`: the `roiBoxes_`
array and the local counter `count`. -/
structure ExtractState where
  roiBoxes_ : Nat → RosBox_
  count : Nat

/-! ## Box extraction (`detectInThread`, the loop after `draw_detections`) -/

/-- The body of the inner loop `for (j = 0; j < demoClasses_; ++j)`: for a
class with non-zero probability, a box passing the 1% size test is stored at
`roiBoxes_[count]` and `count` is incremented. Centre and size are `float`
variables computed with `float` operations. -/
def classBody (F : FloatArith) (d : detection) (xmin xmax ymin ymax : ℚ) (s : ExtractState)
    (j : Nat) : ExtractState :=
  if d.prob j ≠ 0 then
    let x_center := F.toFloat (F.toFloat (xmin + xmax) / 2)
    let y_center := F.toFloat (F.toFloat (ymin + ymax) / 2)
    let BoundingBox_width := F.toFloat (xmax - xmin)
    let BoundingBox_height := F.toFloat (ymax - ymin)
    if BoundingBox_width > 1 / 100 ∧ BoundingBox_height > 1 / 100 then
      { roiBoxes_ := Function.update s.roiBoxes_ s.count
          { s.roiBoxes_ s.count with
            x := x_center, y := y_center, w := BoundingBox_width,
            h := BoundingBox_height, Class := (j : Int), prob := d.prob j },
        count := s.count + 1 }
    else s
  else s

/-- The inner loop over the classes `0 .. demoClasses_ - 1`. -/
def classLoop (F : FloatArith) (demoClasses_ : Nat) (d : detection) (xmin xmax ymin ymax : ℚ)
    (s : ExtractState) : ExtractState :=
  (List.range demoClasses_).foldl (classBody F d xmin xmax ymin ymax) s

/-- Left edge of a detection: `bbox.x - bbox.w / 2.` in `double`, stored in a
`float`, after the clamp `if (xmin < 0) xmin = 0`. -/
def clampedXmin (F : FloatArith) (d : detection) : ℚ :=
  let xmin := F.toFloat (F.toDouble (d.bbox.x - F.toDouble (d.bbox.w / 2)))
  if xmin < 0 then 0 else xmin

/-- Right edge of a detection: `bbox.x + bbox.w / 2.` in `double`, stored in a
`float`, after the clamp `if (xmax > 1) xmax = 1`. -/
def clampedXmax (F : FloatArith) (d : detection) : ℚ :=
  let xmax := F.toFloat (F.toDouble (d.bbox.x + F.toDouble (d.bbox.w / 2)))
  if xmax > 1 then 1 else xmax

/-- Top edge of a detection: `bbox.y - bbox.h / 2.` in `double`, stored in a
`float`, after the clamp `if (ymin < 0) ymin = 0`. -/
def clampedYmin (F : FloatArith) (d : detection) : ℚ :=
  let ymin := F.toFloat (F.toDouble (d.bbox.y - F.toDouble (d.bbox.h / 2)))
  if ymin < 0 then 0 else ymin

/-- Bottom edge of a detection: `bbox.y + bbox.h / 2.` in `double`, stored in
a `float`, after the clamp `if (ymax > 1) ymax = 1`. -/
def clampedYmax (F : FloatArith) (d : detection) : ℚ :=
  let ymax := F.toFloat (F.toDouble (d.bbox.y + F.toDouble (d.bbox.h / 2)))
  if ymax > 1 then 1 else ymax

/-- The body of the outer loop `for (i = 0; i < nboxes; ++i)`: the four edges
are computed and clamped, then the class loop runs. -/
def detBody (F : FloatArith) (demoClasses_ : Nat) (s : ExtractState) (d : detection) :
    ExtractState :=
  classLoop F demoClasses_ d (clampedXmin F d) (clampedXmax F d) (clampedYmin F d)
    (clampedYmax F d) s

/-- The outer loop over the detections `dets[0 .. nboxes - 1]`, from
`count = 0`. -/
def extractLoop (F : FloatArith) (demoClasses_ : Nat) (dets : List detection)
    (roiBoxes_ : Nat → RosBox_) : ExtractState :=
  dets.foldl (detBody F demoClasses_) { roiBoxes_ := roiBoxes_, count := 0 }

/-- The extraction part of `detectInThread`: the two loops, then
`roiBoxes_[0].num = count` (both branches of the `if (count == 0)` store the
count). -/
def extractBoxes (F : FloatArith) (demoClasses_ : Nat) (dets : List detection)
    (roiBoxes_ : Nat → RosBox_) : ExtractState :=
  let s := extractLoop F demoClasses_ dets roiBoxes_
  if s.count = 0 then
    { s with roiBoxes_ := Function.update s.roiBoxes_ 0 { s.roiBoxes_ 0 with num := 0 } }
  else
    { s with roiBoxes_ := Function.update s.roiBoxes_ 0 { s.roiBoxes_ 0 with num := (s.count : Int) } }

/-- The size test of the extraction loop on the clamped edges of a detection. -/
def sizeOk (F : FloatArith) (d : detection) : Prop :=
  F.toFloat (clampedXmax F d - clampedXmin F d) > 1 / 100 ∧
  F.toFloat (clampedYmax F d - clampedYmin F d) > 1 / 100

instance (F : FloatArith) (d : detection) : Decidable (sizeOk F d) := by
  unfold sizeOk; infer_instance

/-- The classes `j < demoClasses_` with `prob[j] != 0`, in increasing order. -/
def nonzeroClasses (demoClasses_ : Nat) (d : detection) : List Nat :=
  (List.range demoClasses_).filter (fun j => d.prob j ≠ 0)

/-- The record stored for class `j` of detection `d` over the previous
content `old` of the array element (its `num` field is kept). -/
def boxFor (F : FloatArith) (d : detection) (j : Nat) (old : RosBox_) : RosBox_ :=
  { old with
    x := F.toFloat (F.toFloat (clampedXmin F d + clampedXmax F d) / 2),
    y := F.toFloat (F.toFloat (clampedYmin F d + clampedYmax F d) / 2),
    w := F.toFloat (clampedXmax F d - clampedXmin F d),
    h := F.toFloat (clampedYmax F d - clampedYmin F d),
    Class := (j : Int), prob := d.prob j }

/-- Every stored element below `count` passes the 1% size bound. -/
def AllAdmissible (s : ExtractState) : Prop :=
  ∀ i, i < s.count → (s.roiBoxes_ i).w > 1 / 100 ∧ (s.roiBoxes_ i).h > 1 / 100

/-- An all-zero `RosBox_`. -/
def RosBox_.zero : RosBox_ :=
  { x := 0, y := 0, w := 0, h := 0, prob := 0, num := 0, Class := 0 }

/-- An all-zero `RosBox_` array, as `calloc` returns it in `yolo`. -/
def zeroBoxes : Nat → RosBox_ :=
  fun _ => RosBox_.zero

/-- A sample detection: a 20% by 20% box at the image centre, with non-zero
probability for classes 0 and 2 only. -/
def sampleDetection : detection :=
  { bbox := { x := 1 / 2, y := 1 / 2, w := 1 / 5, h := 1 / 5 },
    prob := fun j => if j = 0 then 9 / 10 else if j = 2 then 1 / 4 else 0 }

/-! ## Temporal averaging (`sizeNetwork`, `rememberNetwork`, `avgPredictions`) -/

/-- The layer kinds of darknet; the detector only asks whether a layer is
`YOLO`, `REGION` or `DETECTION`. -/
inductive LAYER_TYPE where
  | CONVOLUTIONAL
  | MAXPOOL
  | ROUTE
  | UPSAMPLE
  | SHORTCUT
  | REGION
  | DETECTION
  | YOLO
  | OTHER
  deriving DecidableEq, Repr

/-- The fields of darknet's `layer` that the detector reads: the kind, the
number of outputs and the output buffer. -/
structure layer where
  type : LAYER_TYPE
  outputs : Nat
  output : Nat → ℚ

/-- A network is its array of layers (`net->layers[0 .. net->n - 1]`). -/
abbrev network := List layer

/-- The test `l.type == YOLO || l.type == REGION || l.type == DETECTION`. -/
def isHead (l : layer) : Bool :=
  l.type = LAYER_TYPE.YOLO || l.type = LAYER_TYPE.REGION || l.type = LAYER_TYPE.DETECTION

/-- `memcpy(dst + off, src, sizeof(float) * n)` on float buffers. -/
def memcpy (dst : Nat → ℚ) (off : Nat) (src : Nat → ℚ) (n : Nat) : Nat → ℚ :=
  fun i => if off ≤ i ∧ i < off + n then src (i - off) else dst i

/-- The loop of `rememberNetwork` on the destination row, from the offset
`count`: every head layer's output is copied at the running offset. -/
def rememberLoop (layers : List layer) (row : Nat → ℚ) (count : Nat) : Nat → ℚ :=
  (layers.foldl
    (fun (acc : (Nat → ℚ) × Nat) l =>
      if isHead l then (memcpy acc.1 acc.2 l.output l.outputs, acc.2 + l.outputs) else acc)
    (row, count)).1

/-- `rememberNetwork`: the head layers' outputs are copied, one after the
other, into the row `predictions_[demoIndex_]`. -/
def rememberNetwork (net : network) (predictions_ : Nat → Nat → ℚ) (demoIndex_ : Nat) :
    Nat → Nat → ℚ :=
  Function.update predictions_ demoIndex_ (rememberLoop net (predictions_ demoIndex_) 0)

/-- The members that `detectInThread` updates. -/
structure DetectState where
  predictions_ : Nat → Nat → ℚ
  avg_ : Nat → ℚ
  demoIndex_ : Nat
  roiBoxes_ : Nat → RosBox_

/-- The state `yolo` sets up before its loop: `calloc`ed (all-zero) window,
average and box array, and cursor 0. -/
def DetectState.init : DetectState :=
  { predictions_ := fun _ _ => 0, avg_ := fun _ => 0, demoIndex_ := 0, roiBoxes_ := zeroBoxes }

/-- The members `setupNetwork` sets from its numeric arguments. -/
structure DemoSettings where
  demoDelay_ : Int
  demoFrame_ : Nat
  demoClasses_ : Nat
  demoThresh_ : ℚ
  demoHier_ : ℚ
  fullScreen_ : Int

/-- `setupNetwork`: `demoDelay_ = delay`, `demoFrame_ = avg_frames`,
`demoClasses_ = classes`, `demoThresh_ = thresh`, `demoHier_ = hier`,
`fullScreen_ = fullscreen`. It is the only place that assigns `demoFrame_`. -/
def setupNetwork (thresh : ℚ) (classes : Nat) (delay : Int) (avg_frames : Nat) (hier : ℚ)
    (fullscreen : Int) : DemoSettings :=
  { demoDelay_ := delay, demoFrame_ := avg_frames, demoClasses_ := classes,
    demoThresh_ := thresh, demoHier_ := hier, fullScreen_ := fullscreen }

/-- The one call of `setupNetwork`, in `init`:
`setupNetwork(cfg, weights, data, thresh, detectionNames, numClasses_, 0, 0, 1, 0.5, 0, 0, 0, 0)`,
that is delay 0, `avg_frames` 1, hier 0.5 and fullscreen 0, for the configured
threshold and number of classes. -/
def init (thresh : ℚ) (numClasses_ : Nat) : DemoSettings :=
  setupNetwork thresh numClasses_ 0 1 (1 / 2) 0

/-- The raw output snapshot of a network: the outputs of its head layers, one
after the other; 0 beyond the last of them. -/
def snapshot : network → Nat → ℚ
  | [], _ => 0
  | l :: ls, e =>
    if isHead l then (if e < l.outputs then l.output e else snapshot ls (e - l.outputs))
    else snapshot ls e

/-- A network of one convolutional layer and one `YOLO` layer whose two
outputs are 2 and 4. -/
def sampleNet : network :=
  [ { type := LAYER_TYPE.CONVOLUTIONAL, outputs := 3, output := fun _ => 7 },
    { type := LAYER_TYPE.YOLO, outputs := 2, output := fun i => if i = 0 then 2 else 4 } ]

/-! ## Frame ring and the orchestrator loop (`yolo`, `fetchInThread`) -/

/-- A camera image, identified by a number (its pixels play no role here). -/
abbrev Image := Nat

/-- A message header, identified by a number. -/
abbrev Header := Nat

/-- The three-slot ring of `yolo`: the rotating index, the raw frames, their
headers, the request ids and the letterboxed tensors (each identified by the
image it was computed from). -/
structure RingState where
  buffIndex_ : Nat
  buff_ : Nat → Image
  headerBuff_ : Nat → Header
  buffId_ : Nat → Int
  buffLetter_ : Nat → Image

/-- What the callbacks have stored when a fetch runs: the latest image, its
header and the id of the latest accepted request. -/
structure CameraInput where
  camImageCopy_ : Image
  imageHeader_ : Header
  actionId_ : Int

/-- The slot `fetchInThread` writes: `buffIndex_`. -/
def fetchSlot (buffIndex_ : Nat) : Nat := buffIndex_

/-- The rotating slot of `detectInThread`, `(buffIndex_ + 2) % 3`: it holds the
tensor passed to `network_predict` and the image the detections are drawn on.
It is not the only slot a run of detect reads: see `detectView`. -/
def detectSlot (buffIndex_ : Nat) : Nat := (buffIndex_ + 2) % 3

/-- `fetchInThread`: the latest image, header and request id are stored in
slot `buffIndex_`, and the image is letterboxed into `buffLetter_[buffIndex_]`. -/
def fetchInThread (inp : CameraInput) (st : RingState) : RingState :=
  { st with
    buff_ := Function.update st.buff_ (fetchSlot st.buffIndex_) inp.camImageCopy_,
    headerBuff_ := Function.update st.headerBuff_ (fetchSlot st.buffIndex_) inp.imageHeader_,
    buffId_ := Function.update st.buffId_ (fetchSlot st.buffIndex_) inp.actionId_,
    buffLetter_ := Function.update st.buffLetter_ (fetchSlot st.buffIndex_) inp.camImageCopy_ }

/-- The first statement of the loop body of `yolo`:
`buffIndex_ = (buffIndex_ + 1) % 3`. -/
def advance (st : RingState) : RingState :=
  { st with buffIndex_ := (st.buffIndex_ + 1) % 3 }

/-- The tensor `detectInThread` passes to `network_predict` in a cycle whose
index has been advanced: `buffLetter_[(buffIndex_ + 2) % 3]`. -/
def detectInput (st : RingState) : Image :=
  st.buffLetter_ (detectSlot st.buffIndex_)

/-- What one run of `detectInThread` takes from the ring, given the size
`dims` of every image: the tensor `buffLetter_[(buffIndex_ + 2) % 3]` passed
to `network_predict`, the width and height `buff_[0].w`, `buff_[0].h` that
`avgPredictions` passes to `get_network_boxes`, and the image
`buff_[(buffIndex_ + 2) % 3]` on which the detections are drawn. -/
def detectView (dims : Image → Nat × Nat) (st : RingState) :
    Image × (Nat × Nat) × Image :=
  (st.buffLetter_ (detectSlot st.buffIndex_), dims (st.buff_ 0),
   st.buff_ (detectSlot st.buffIndex_))

/-- One cycle of the loop of `yolo` on the ring: the index advances, then the
fetch thread fills the slot (the detect thread does not write the ring). -/
def yoloCycle (inp : CameraInput) (st : RingState) : RingState :=
  fetchInThread inp (advance st)

/-- The ring after `n` cycles, cycle `t` (from 0) fetching the input `inps t`. -/
def ringAfter (init : RingState) (inps : Nat → CameraInput) : Nat → RingState
  | 0 => init
  | n + 1 => yoloCycle (inps n) (ringAfter init inps n)

/-- The ring during cycle `n` (from 0), after the index has advanced and
before the fetch of this cycle writes. -/
def ringDuring (init : RingState) (inps : Nat → CameraInput) (n : Nat) : RingState :=
  advance (ringAfter init inps n)

/-- The node state the one-shot interface involves: the ring, what the
callbacks stored, and whether the action server has an active goal. -/
structure NodeState where
  ring : RingState
  cam : CameraInput
  active : Bool

/-- `checkForObjectsActionGoalCB` for a goal whose image converts: the image
and the id are stored and the goal is active. -/
def checkForObjectsActionGoalCB (id : Int) (image : Image) (st : NodeState) : NodeState :=
  { st with cam := { st.cam with camImageCopy_ := image, actionId_ := id }, active := true }

/-- The id of the result that the end of `publishInThread` sends when
`isCheckingForObjects()` holds: `buffId_[0]`. -/
def actionResultId (st : RingState) : Int := st.buffId_ 0

/-- One cycle of `yolo` with the one-shot part of `publishInThread`: the
fetch of this cycle is taken to have finished before the result is built.
Returns the new state and the id of the result sent, if one is. -/
def nodeCycle (st : NodeState) : NodeState × Option Int :=
  let ring := yoloCycle st.cam st.ring
  ({ st with ring := ring, active := false },
   if st.active then some (actionResultId ring) else none)

/-- The events of a run of the node. -/
inductive NodeEvent where
  | goal (id : Int) (image : Image)
  | cycle

/-- A run of the node: the final state and the results sent, in order. -/
def runNode : List NodeEvent → NodeState → NodeState × List (Option Int)
  | [], st => (st, [])
  | NodeEvent.goal id image :: rest, st => runNode rest (checkForObjectsActionGoalCB id image st)
  | NodeEvent.cycle :: rest, st =>
    let r := nodeCycle st
    let out := runNode rest r.1
    (out.1, r.2 :: out.2)

/-- A node that has seen one image (number 100) and no request: index 0,
all slots holding that image, all ids 0. -/
def sampleNode : NodeState :=
  { ring := { buffIndex_ := 0, buff_ := fun _ => 100, headerBuff_ := fun _ => 100,
              buffId_ := fun _ => 0, buffLetter_ := fun _ => 100 },
    cam := { camImageCopy_ := 100, imageHeader_ := 100, actionId_ := 0 },
    active := false }

/-! ## Floating-point values with the IEEE special cases -/

/-- A `float`/`double` value: a finite value (an exact rational), an infinity
(`negative` tells its sign) or NaN. Zero has no sign here: a zero divisor is
taken as `+0`. -/
inductive Fl where
  | fin (q : ℚ)
  | inf (negative : Bool)
  | nan
  deriving DecidableEq

namespace Fl

/-- Conversion of an `int` to floating point. -/
def ofInt (i : Int) : Fl := fin (i : ℚ)

/-- Subtraction: `inf - inf` of equal signs is NaN. -/
def sub : Fl → Fl → Fl
  | nan, _ => nan
  | _, nan => nan
  | fin a, fin b => fin (a - b)
  | fin _, inf s => inf (!s)
  | inf s, fin _ => inf s
  | inf s, inf t => if s = t then nan else inf s

/-- Multiplication: `0 * inf` is NaN. -/
def mul : Fl → Fl → Fl
  | nan, _ => nan
  | _, nan => nan
  | fin a, fin b => fin (a * b)
  | fin a, inf s => if a = 0 then nan else inf (xor (decide (a < 0)) s)
  | inf s, fin b => if b = 0 then nan else inf (xor s (decide (b < 0)))
  | inf s, inf t => inf (xor s t)

/-- Division: `0 / 0` and `inf / inf` are NaN, a non-zero finite value over
zero is an infinity, a finite value over an infinity is zero. -/
def div : Fl → Fl → Fl
  | nan, _ => nan
  | _, nan => nan
  | fin a, fin b => if b = 0 then (if a = 0 then nan else inf (decide (a < 0))) else fin (a / b)
  | fin _, inf _ => fin 0
  | inf s, fin b => inf (xor s (decide (b < 0)))
  | inf _, inf _ => nan

/-- The C function `round` on a finite value: to the nearest integer, halves
away from zero. -/
def roundQ (q : ℚ) : Int :=
  if 0 ≤ q then ⌊q + 1 / 2⌋ else ⌈q - 1 / 2⌉

/-- The C function `round`: infinities and NaN are returned unchanged. -/
def round : Fl → Fl
  | fin q => fin (roundQ q : ℚ)
  | inf s => inf s
  | nan => nan

/-- A value is finite. -/
def isFinite : Fl → Bool
  | fin _ => true
  | _ => false

end Fl

/-- The conversion of a finite floating-point value to `int`: truncation
toward zero. -/
def truncQ (q : ℚ) : Int :=
  if 0 ≤ q then ⌊q⌋ else ⌈q⌉

/-! ## Calibration (`cameraDepthInfoCallback`) -/

/-- The calibration members of the detector. -/
structure Calibration where
  depth_frame_ : String
  intrin_fx_ : Fl
  intrin_fy_ : Fl
  intrin_cx_ : Fl
  intrin_cy_ : Fl

/-- The fields of `sensor_msgs::CameraInfo` the callback reads: the frame id
of the header, the distortion model and the matrix `K` (9 entries). -/
structure CameraInfo where
  frame_id : String
  distortion_model : String
  K : Nat → Fl

/-- `cameraDepthInfoCallback`: a message whose distortion model is
`"plumb_bob"` replaces the frame id and the four intrinsics. -/
def cameraDepthInfoCallback (depthInfoMsg : CameraInfo) (c : Calibration) : Calibration :=
  if depthInfoMsg.distortion_model = "plumb_bob" then
    { depth_frame_ := depthInfoMsg.frame_id,
      intrin_fx_ := depthInfoMsg.K 0,
      intrin_fy_ := depthInfoMsg.K 4,
      intrin_cx_ := depthInfoMsg.K 2,
      intrin_cy_ := depthInfoMsg.K 5 }
  else c

/-- The calibration before any message: the value the claims about the
uncalibrated node take, all four intrinsics zero. -/
def Calibration.zero : Calibration :=
  { depth_frame_ := "", intrin_fx_ := Fl.fin 0, intrin_fy_ := Fl.fin 0,
    intrin_cx_ := Fl.fin 0, intrin_cy_ := Fl.fin 0 }

/-! ## Depth back-projection (`associateDepth`) -/

/-- The `darknet_ros_msgs::BoundingBox` message. -/
structure BoundingBox where
  Class : String
  probability : ℚ
  xmin : Int
  ymin : Int
  xmax : Int
  ymax : Int
  id : Int

/-- The `darknet_ros_msgs::ObjDepth` message. -/
structure ObjDepth where
  objID : Int
  className : String
  classType : String
  objDepth : Fl
  objX : Fl
  objY : Fl
  bbox_center_u : Int
  bbox_center_v : Int

/-- A default-constructed `ObjDepth` message. -/
def ObjDepth.default : ObjDepth :=
  { objID := 0, className := "", classType := "", objDepth := Fl.fin 0, objX := Fl.fin 0,
    objY := Fl.fin 0, bbox_center_u := 0, bbox_center_v := 0 }

/-- The depth image `depthImageCopy_` (16-bit samples, millimetres).
`outOfRange v u` is what the access `at<u_int16_t>(v, u)` of OpenCV does for a
position outside the image, which the source of the node does not fix: `none`
when the access raises an exception (a build with the range assertions),
`some s` when the unchecked access returns the 16-bit value `s` found at that
address. -/
structure DepthImage where
  rows : Nat
  cols : Nat
  data : Nat → Nat → Nat
  outOfRange : Int → Int → Option Nat

/-- The access `depthImageCopy_.at<u_int16_t>(v, u)`: the sample at row `v`,
column `u` inside the image, and `outOfRange v u` outside it (every position
of an empty image is outside). `none` is an exception. -/
def DepthImage.at (img : DepthImage) (v u : Int) : Option Nat :=
  if 0 ≤ v ∧ v < img.rows ∧ 0 ≤ u ∧ u < img.cols then some (img.data v.toNat u.toNat)
  else img.outOfRange v u

/-- A depth image with the same sample everywhere, whose access raises
outside the image. -/
def constDepth (rows cols Z0 : Nat) : DepthImage :=
  { rows := rows, cols := cols, data := fun _ _ => Z0, outOfRange := fun _ _ => none }

/-- A depth image with the same sample everywhere, whose access is unchecked
and finds the value `found` outside the image. -/
def uncheckedDepth (rows cols Z0 found : Nat) : DepthImage :=
  { rows := rows, cols := cols, data := fun _ _ => Z0, outOfRange := fun _ _ => some found }

/-- The column `u` at which `associateDepth` samples the depth:
`(bbox.xmin + bbox.xmax) / 2` in integer arithmetic. -/
def pixelCenterU (bbox : BoundingBox) : Int := Int.tdiv (bbox.xmin + bbox.xmax) 2

/-- The row `v` at which `associateDepth` samples the depth:
`(bbox.ymin + bbox.ymax) / 2` in integer arithmetic. -/
def pixelCenterV (bbox : BoundingBox) : Int := Int.tdiv (bbox.ymin + bbox.ymax) 2

/-- `associateDepth`: the depth is sampled at the centre of the box,
converted to metres and back-projected with the pinhole formulas; values are
rounded to millimetres. When the access raises, the `catch` branch returns
the message that was passed in. -/
def associateDepth (depthImageCopy_ : DepthImage) (c : Calibration) (bbox : BoundingBox)
    (ObjDepthMsg : ObjDepth) : ObjDepth :=
  let u : Int := pixelCenterU bbox
  let v : Int := pixelCenterV bbox
  match depthImageCopy_.at v u with
  | some sample =>
    let Z : ℚ := (1 / 1000) * (sample : ℚ)
    { objID := bbox.id,
      className := bbox.Class,
      classType := "To be decided",
      objDepth := Fl.div (Fl.round (Fl.fin (Z * 1000))) (Fl.fin 1000),
      objX := Fl.div (Fl.round (Fl.div (Fl.mul (Fl.mul (Fl.sub (Fl.ofInt u) c.intrin_cx_)
                (Fl.fin Z)) (Fl.fin 1000)) c.intrin_fx_)) (Fl.fin 1000),
      objY := Fl.div (Fl.round (Fl.div (Fl.mul (Fl.mul (Fl.sub (Fl.ofInt v) c.intrin_cy_)
                (Fl.fin Z)) (Fl.fin 1000)) c.intrin_fy_)) (Fl.fin 1000),
      bbox_center_u := u,
      bbox_center_v := v }
  | none => ObjDepthMsg

/-- A pixel box centred at pixel (320, 240) of a 640 x 480 frame. -/
def sampleBBox : BoundingBox :=
  { Class := "person", probability := 9 / 10, xmin := 300, ymin := 220, xmax := 340,
    ymax := 260, id := 0 }

/-- A calibration whose principal point is pixel (320, 240) and whose focal
lengths are zero. -/
def zeroFocalCalibration : Calibration :=
  { depth_frame_ := "camera_color_optical_frame", intrin_fx_ := Fl.fin 0,
    intrin_fy_ := Fl.fin 0, intrin_cx_ := Fl.ofInt 320, intrin_cy_ := Fl.ofInt 240 }

/-- A calibration whose principal point is pixel (320, 240) and whose focal
lengths are 600 pixels. -/
def sampleCalibration : Calibration :=
  { depth_frame_ := "camera_color_optical_frame", intrin_fx_ := Fl.fin 600,
    intrin_fy_ := Fl.fin 600, intrin_cx_ := Fl.ofInt 320, intrin_cy_ := Fl.ofInt 240 }

/-! ## Publication (`publishInThread`) -/

/-- What `publishInThread` hands to the transport, in the order it does so.
The two image topics it also publishes carry no data of the model and are
left out. -/
inductive Published where
  | objectCount (count : Int)
  | boundingBoxes (bounding_boxes : List BoundingBox) (image_header : Header)
  | frameDepth (frame_id : String) (objCount : Int) (objDepths : List ObjDepth)
  | actionResult (id : Int) (bounding_boxes : List BoundingBox)

/-- The members `publishInThread` reads and writes. `rosBoxes_` and
`rosBoxCounter_` are indexed by class; `boundingBoxesResults_` is the box
list of the message of that name and `objDepths` the list of `DepthMsg_`. -/
structure PublishState where
  roiBoxes_ : Nat → RosBox_
  numClasses_ : Nat
  classLabels_ : List String
  rosBoxes_ : Nat → List RosBox_
  rosBoxCounter_ : Nat → Int
  boundingBoxesResults_ : List BoundingBox
  objDepths : List ObjDepth
  frameWidth_ : Int
  frameHeight_ : Int
  depthImageCopy_ : DepthImage
  calib : Calibration
  headerBuff_ : Nat → Header
  buffId_ : Nat → Int
  buffIndex_ : Nat

/-- The first loop nest of `publishInThread`: box `i` is appended to the list
of every class `j < numClasses_` equal to its `Class`, whose counter grows. -/
def sortBoxes (numClasses_ : Nat) (roiBoxes_ : Nat → RosBox_) (num : Nat)
    (rosBoxes_ : Nat → List RosBox_) (rosBoxCounter_ : Nat → Int) :
    (Nat → List RosBox_) × (Nat → Int) :=
  (List.range num).foldl
    (fun acc i =>
      (List.range numClasses_).foldl
        (fun (acc : (Nat → List RosBox_) × (Nat → Int)) (j : Nat) =>
          if (roiBoxes_ i).Class = (j : Int) then
            (Function.update acc.1 j (acc.1 j ++ [roiBoxes_ i]),
             Function.update acc.2 j (acc.2 j + 1))
          else acc)
        acc)
    (rosBoxes_, rosBoxCounter_)

/-- The pixel box of a normalised box: the four products are converted to
`int`, the label and the id are those of class `i`. -/
def toBoundingBox (classLabels_ : List String) (frameWidth_ frameHeight_ : Int) (i : Nat)
    (b : RosBox_) : BoundingBox :=
  { Class := classLabels_.getD i "",
    id := (i : Int),
    probability := b.prob,
    xmin := truncQ ((b.x - b.w / 2) * (frameWidth_ : ℚ)),
    ymin := truncQ ((b.y - b.h / 2) * (frameHeight_ : ℚ)),
    xmax := truncQ ((b.x + b.w / 2) * (frameWidth_ : ℚ)),
    ymax := truncQ ((b.y + b.h / 2) * (frameHeight_ : ℚ)) }

/-- The loop over the boxes `j < rosBoxCounter_[i]` of class `i`: each pixel
box is appended to the results and its depth estimate to `objDepths`;
`objDepthMsg` is the variable that is passed to `associateDepth` and receives
its result. -/
def classBoxes (st : PublishState) (i : Nat) (boxes : List BoundingBox)
    (depths : List ObjDepth) : List BoundingBox × List ObjDepth :=
  let r := (List.range (st.rosBoxCounter_ i).toNat).foldl
    (fun (acc : List BoundingBox × List ObjDepth × ObjDepth) j =>
      let boundingBox := toBoundingBox st.classLabels_ st.frameWidth_ st.frameHeight_ i
        ((st.rosBoxes_ i).getD j RosBox_.zero)
      let objDepthMsg := associateDepth st.depthImageCopy_ st.calib boundingBox acc.2.2
      (acc.1 ++ [boundingBox], acc.2.1 ++ [objDepthMsg], objDepthMsg))
    (boxes, depths, ObjDepth.default)
  (r.1, r.2.1)

/-- The second loop of `publishInThread`, over the classes `i < numClasses_`
with `rosBoxCounter_[i] > 0`. -/
def collectBoxes (st : PublishState) : List BoundingBox × List ObjDepth :=
  (List.range st.numClasses_).foldl
    (fun acc i => if st.rosBoxCounter_ i > 0 then classBoxes st i acc.1 acc.2 else acc)
    (st.boundingBoxesResults_, st.objDepths)

/-- The clean-up at the end of `publishInThread`: the result list and, for
every class below `numClasses_`, the class list and its counter are cleared. -/
def clearBoxes (st : PublishState) : PublishState :=
  { st with
    boundingBoxesResults_ := [],
    rosBoxes_ := fun i => if i < st.numClasses_ then [] else st.rosBoxes_ i,
    rosBoxCounter_ := fun i => if i < st.numClasses_ then 0 else st.rosBoxCounter_ i }

/-- `publishInThread`; `checking` is the value of `isCheckingForObjects()`.
Returns what is published, in order, and the state afterwards. -/
def publishInThread (checking : Bool) (st : PublishState) : List Published × PublishState :=
  let num : Int := (st.roiBoxes_ 0).num
  let r : List Published × PublishState :=
    if num > 0 ∧ num ≤ 100 then
      let sorted := sortBoxes st.numClasses_ st.roiBoxes_ num.toNat st.rosBoxes_ st.rosBoxCounter_
      let st1 := { st with rosBoxes_ := sorted.1, rosBoxCounter_ := sorted.2 }
      let collected := collectBoxes st1
      ([Published.objectCount num,
        Published.boundingBoxes collected.1 (st.headerBuff_ ((st.buffIndex_ + 1) % 3)),
        Published.frameDepth st.calib.depth_frame_ num collected.2],
       { st1 with boundingBoxesResults_ := collected.1, objDepths := [] })
    else
      ([Published.objectCount 0], st)
  let action : List Published :=
    if checking then [Published.actionResult (r.2.buffId_ 0) r.2.boundingBoxesResults_] else []
  (r.1 ++ action, clearBoxes r.2)

/-- No box list and no depth list is handed to the transport by this item. -/
def Published.carriesNoBoxes : Published → Prop
  | Published.objectCount _ => True
  | Published.boundingBoxes _ _ => False
  | Published.frameDepth _ _ _ => False
  | Published.actionResult _ boxes => boxes = []

/-- The publication state of a node with `numClasses_` = 2 that has seen a
frame 640 pixels wide and 480 high and no calibration, with nothing pending. -/
def samplePublishState : PublishState :=
  { roiBoxes_ := zeroBoxes, numClasses_ := 2, classLabels_ := ["person", "car"],
    rosBoxes_ := fun _ => [], rosBoxCounter_ := fun _ => 0, boundingBoxesResults_ := [],
    objDepths := [], frameWidth_ := 640, frameHeight_ := 480,
    depthImageCopy_ := constDepth 480 640 1500, calib := Calibration.zero,
    headerBuff_ := fun _ => 100, buffId_ := fun _ => 0, buffIndex_ := 0 }

/-- A detection below threshold: a 20% by 20% box at the image centre whose
class probabilities are all zero. -/
def faintDetection : detection :=
  { bbox := { x := 1 / 2, y := 1 / 2, w := 1 / 5, h := 1 / 5 }, prob := fun _ => 0 }

/-- Every stored element below `count` has its four normalised edges, as
`publishInThread` recomputes them from centre and size, within `margin` of
the unit square, and passes the 1% size bound. -/
def AllNearUnit (margin : ℚ) (s : ExtractState) : Prop :=
  ∀ i, i < s.count →
    -margin ≤ (s.roiBoxes_ i).x - (s.roiBoxes_ i).w / 2 ∧
    (s.roiBoxes_ i).x + (s.roiBoxes_ i).w / 2 ≤ 1 + margin ∧
    -margin ≤ (s.roiBoxes_ i).y - (s.roiBoxes_ i).h / 2 ∧
    (s.roiBoxes_ i).y + (s.roiBoxes_ i).h / 2 ≤ 1 + margin ∧
    (s.roiBoxes_ i).w > 1 / 100 ∧ (s.roiBoxes_ i).h > 1 / 100

/-- A detection lying partly outside the unit square: centre (1, 0), size
0.5 by 0.5, non-zero probability for class 0. -/
def cornerDetection : detection :=
  { bbox := { x := 1, y := 0, w := 1 / 2, h := 1 / 2 },
    prob := fun j => if j = 0 then 7 / 10 else 0 }

/-- The state in which `readParameters` leaves the publication members and to
which every run of `publishInThread` returns them: the per-class lists are
empty, their counters zero, and no box or depth estimate is pending. -/
def PublishState.Clean (st : PublishState) : Prop :=
  (∀ j, j < st.numClasses_ → st.rosBoxes_ j = [] ∧ st.rosBoxCounter_ j = 0) ∧
  st.boundingBoxesResults_ = [] ∧ st.objDepths = []

/-- The pixel boxes of class `i`, in the order of its list. -/
def classPixelBoxes (st : PublishState) (i : Nat) : List BoundingBox :=
  (List.range (st.rosBoxCounter_ i).toNat).map
    (fun j => toBoundingBox st.classLabels_ st.frameWidth_ st.frameHeight_ i
      ((st.rosBoxes_ i).getD j RosBox_.zero))

/-- The sum of the class counters below `n`. -/
def counterSum (n : Nat) (rosBoxCounter_ : Nat → Int) : Nat :=
  ∑ j in Finset.range n, (rosBoxCounter_ j).toNat

/-- The state after the first loop nest of `publishInThread`: the boxes
`roiBoxes_[0 .. num - 1]` are sorted into the class lists. -/
def sortedState (st : PublishState) : PublishState :=
  { st with
    rosBoxes_ := (sortBoxes st.numClasses_ st.roiBoxes_ (st.roiBoxes_ 0).num.toNat
      st.rosBoxes_ st.rosBoxCounter_).1,
    rosBoxCounter_ := (sortBoxes st.numClasses_ st.roiBoxes_ (st.roiBoxes_ 0).num.toNat
      st.rosBoxes_ st.rosBoxCounter_).2 }

/-- A publication state holding one extracted box, of class 1 (`"car"`), in a
640 x 480 frame. -/
def oneBoxState : PublishState :=
  { samplePublishState with
    roiBoxes_ := fun _ =>
      { x := 1 / 2, y := 1 / 2, w := 1 / 5, h := 1 / 5, prob := 9 / 10, num := 1, Class := 1 } }

/-- The first of two extracted boxes of class 0: 20% by 20% around
(0.25, 0.25); it carries `num = 2`. -/
def upperLeftBox : RosBox_ :=
  { x := 1 / 4, y := 1 / 4, w := 1 / 5, h := 1 / 5, prob := 9 / 10, num := 2, Class := 0 }

/-- The second of two extracted boxes of class 0: 20% by 20% around
(0.75, 0.75). -/
def lowerRightBox : RosBox_ :=
  { x := 3 / 4, y := 3 / 4, w := 1 / 5, h := 1 / 5, prob := 4 / 5, num := 0, Class := 0 }

/-- A publication state with two extracted boxes of class 0 in a 640 x 480
frame, a calibrated camera, and a depth image of 320 x 240 samples only (the
depth stream is not required to have the resolution of the colour stream). -/
def twoBoxState : PublishState :=
  { samplePublishState with
    roiBoxes_ := fun i => if i = 0 then upperLeftBox else lowerRightBox,
    depthImageCopy_ := constDepth 240 320 1500,
    calib := sampleCalibration }

/-- The pixel box of `upperLeftBox` in the 640 x 480 frame. -/
def upperLeftPixelBox : BoundingBox :=
  { Class := "person", probability := 9 / 10, xmin := 96, ymin := 72, xmax := 224,
    ymax := 168, id := 0 }

/-- The pixel box of `lowerRightBox` in the 640 x 480 frame. -/
def lowerRightPixelBox : BoundingBox :=
  { Class := "person", probability := 4 / 5, xmin := 416, ymin := 312, xmax := 544,
    ymax := 408, id := 0 }

/-- The depth estimate of `upperLeftPixelBox` (centre (160, 120)) at depth
1500 with `sampleCalibration`. -/
def upperLeftEstimate : ObjDepth :=
  { objID := 0, className := "person", classType := "To be decided",
    objDepth := Fl.fin (3 / 2), objX := Fl.fin (-2 / 5), objY := Fl.fin (-3 / 10),
    bbox_center_u := 160, bbox_center_v := 120 }

/-- The state of `twoBoxState` in a build whose depth access is unchecked and
finds the value 3000 outside the image. -/
def twoBoxStateUnchecked : PublishState :=
  { twoBoxState with depthImageCopy_ := uncheckedDepth 240 320 1500 3000 }

/-- The depth estimate computed for `lowerRightPixelBox` (centre (480, 360))
from the value 3000 with `sampleCalibration`. -/
def lowerRightEstimate : ObjDepth :=
  { objID := 0, className := "person", classType := "To be decided",
    objDepth := Fl.fin 3, objX := Fl.fin (4 / 5), objY := Fl.fin (3 / 5),
    bbox_center_u := 480, bbox_center_v := 360 }

/-- A ring that has seen one image (number 100) only, index 0. -/
def sampleRing : RingState :=
  { buffIndex_ := 0, buff_ := fun _ => 100, headerBuff_ := fun _ => 100,
    buffId_ := fun _ => 0, buffLetter_ := fun _ => 100 }

/-- The camera delivers image `101 + t` before cycle `t`. -/
def sampleInputs (t : Nat) : CameraInput :=
  { camImageCopy_ := 101 + t, imageHeader_ := 101 + t, actionId_ := 0 }

/-- Image sizes: image 103 is 1280 x 720, every other image 640 x 480. -/
def sampleDims (im : Image) : Nat × Nat :=
  if im = 103 then (1280, 720) else (640, 480)

theorem exact_within : FloatArith.exact.Within 0 := by
  refine ⟨fun q hq => hq, fun q _ => ?_⟩
  simp [FloatArith.exact]

theorem classBody_emit (F : FloatArith) (d : detection) (xmin xmax ymin ymax : ℚ)
    (s : ExtractState) (j : Nat)
    (hp : d.prob j ≠ 0) (hsz : F.toFloat (xmax - xmin) > 1 / 100 ∧ F.toFloat (ymax - ymin) > 1 / 100) :
    classBody F d xmin xmax ymin ymax s j =
      { roiBoxes_ := Function.update s.roiBoxes_ s.count
          { s.roiBoxes_ s.count with
            x := F.toFloat (F.toFloat (xmin + xmax) / 2),
            y := F.toFloat (F.toFloat (ymin + ymax) / 2), w := F.toFloat (xmax - xmin),
            h := F.toFloat (ymax - ymin), Class := (j : Int), prob := d.prob j },
        count := s.count + 1 } := by
  rw [classBody]; dsimp only; rw [if_pos hp, if_pos hsz]

theorem classBody_skip_prob (F : FloatArith) (d : detection) (xmin xmax ymin ymax : ℚ)
    (s : ExtractState)
    (j : Nat) (hp : d.prob j = 0) : classBody F d xmin xmax ymin ymax s j = s := by
  rw [classBody]; dsimp only; rw [if_neg (not_not.mpr hp)]

theorem classBody_skip_size (F : FloatArith) (d : detection) (xmin xmax ymin ymax : ℚ)
    (s : ExtractState)
    (j : Nat) (hsz : ¬ (F.toFloat (xmax - xmin) > 1 / 100 ∧ F.toFloat (ymax - ymin) > 1 / 100)) :
    classBody F d xmin xmax ymin ymax s j = s := by
  rw [classBody]; dsimp only; rw [if_neg hsz]; exact ite_self s

theorem classBody_admissible (F : FloatArith) (d : detection) (xmin xmax ymin ymax : ℚ)
    (s : ExtractState)
    (j : Nat) (hs : AllAdmissible s) : AllAdmissible (classBody F d xmin xmax ymin ymax s j) := by
  by_cases hp : d.prob j = 0
  · rw [classBody_skip_prob F d xmin xmax ymin ymax s j hp]; exact hs
  · by_cases hsz : F.toFloat (xmax - xmin) > 1 / 100 ∧ F.toFloat (ymax - ymin) > 1 / 100
    · rw [classBody_emit F d xmin xmax ymin ymax s j hp hsz]
      intro i hi
      by_cases hic : i = s.count
      · subst hic
        simpa using hsz
      · have hlt : i < s.count := by
          have : i < s.count + 1 := hi
          omega
        simpa [Function.update_noteq hic] using hs i hlt
    · rw [classBody_skip_size F d xmin xmax ymin ymax s j hsz]; exact hs

theorem foldl_classBody_admissible (F : FloatArith) (d : detection) (xmin xmax ymin ymax : ℚ)
    (js : List Nat) :
    ∀ s : ExtractState, AllAdmissible s →
      AllAdmissible (js.foldl (classBody F d xmin xmax ymin ymax) s) := by
  induction js with
  | nil => intro s hs; simpa using hs
  | cons j js ih =>
    intro s hs
    simpa using ih _ (classBody_admissible F d xmin xmax ymin ymax s j hs)

theorem detBody_admissible (F : FloatArith) (demoClasses_ : Nat) (s : ExtractState) (d : detection)
    (hs : AllAdmissible s) : AllAdmissible (detBody F demoClasses_ s d) :=
  foldl_classBody_admissible F d _ _ _ _ _ s hs

theorem extractLoop_admissible (F : FloatArith) (demoClasses_ : Nat) (dets : List detection) :
    ∀ s : ExtractState, AllAdmissible s → AllAdmissible (dets.foldl (detBody F demoClasses_) s) := by
  induction dets with
  | nil => intro s hs; simpa using hs
  | cons d ds ih =>
    intro s hs
    simpa using ih _ (detBody_admissible F demoClasses_ s d hs)

theorem extractBoxes_count (F : FloatArith) (demoClasses_ : Nat) (dets : List detection)
    (roiBoxes_ : Nat → RosBox_) :
    (extractBoxes F demoClasses_ dets roiBoxes_).count
      = (extractLoop F demoClasses_ dets roiBoxes_).count := by
  unfold extractBoxes
  by_cases h : (extractLoop F demoClasses_ dets roiBoxes_).count = 0 <;> simp [h]

theorem extractBoxes_w (F : FloatArith) (demoClasses_ : Nat) (dets : List detection)
    (roiBoxes_ : Nat → RosBox_) (i : Nat) :
    ((extractBoxes F demoClasses_ dets roiBoxes_).roiBoxes_ i).w
      = ((extractLoop F demoClasses_ dets roiBoxes_).roiBoxes_ i).w := by
  unfold extractBoxes
  by_cases h : (extractLoop F demoClasses_ dets roiBoxes_).count = 0 <;>
    by_cases hi : i = 0 <;> simp [h, hi, Function.update_noteq]

theorem extractBoxes_h (F : FloatArith) (demoClasses_ : Nat) (dets : List detection)
    (roiBoxes_ : Nat → RosBox_) (i : Nat) :
    ((extractBoxes F demoClasses_ dets roiBoxes_).roiBoxes_ i).h
      = ((extractLoop F demoClasses_ dets roiBoxes_).roiBoxes_ i).h := by
  unfold extractBoxes
  by_cases h : (extractLoop F demoClasses_ dets roiBoxes_).count = 0 <;>
    by_cases hi : i = 0 <;> simp [h, hi, Function.update_noteq]

/-- C1: every box that the extraction loop of `detectInThread` stores in
`roiBoxes_` (every index below the final `count`) has `w > 0.01` and
`h > 0.01`, for every list of detections, every class count, every previous
content of the array and every arithmetic. -/
theorem C1_emitted_box_exceeds_one_percent (F : FloatArith) (demoClasses_ : Nat)
    (dets : List detection)
    (roiBoxes_ : Nat → RosBox_) (i : Nat)
    (hi : i < (extractBoxes F demoClasses_ dets roiBoxes_).count) :
    ((extractBoxes F demoClasses_ dets roiBoxes_).roiBoxes_ i).w > 1 / 100 ∧
    ((extractBoxes F demoClasses_ dets roiBoxes_).roiBoxes_ i).h > 1 / 100 := by
  rw [extractBoxes_count] at hi
  rw [extractBoxes_w, extractBoxes_h]
  have h0 : AllAdmissible { roiBoxes_ := roiBoxes_, count := 0 } := by
    intro k hk; exact absurd hk (Nat.not_lt_zero k)
  exact extractLoop_admissible F demoClasses_ dets _ h0 i hi

theorem foldl_classBody_of_not_sizeOk (F : FloatArith) (d : detection) (xmin xmax ymin ymax : ℚ)
    (hsz : ¬ (F.toFloat (xmax - xmin) > 1 / 100 ∧ F.toFloat (ymax - ymin) > 1 / 100)) (js : List Nat) :
    ∀ s : ExtractState, js.foldl (classBody F d xmin xmax ymin ymax) s = s := by
  induction js with
  | nil => intro s; rfl
  | cons j js ih =>
    intro s
    rw [List.foldl_cons, classBody_skip_size F d xmin xmax ymin ymax s j hsz]
    exact ih s

theorem foldl_classBody_count (F : FloatArith) (d : detection) (xmin xmax ymin ymax : ℚ)
    (hsz : F.toFloat (xmax - xmin) > 1 / 100 ∧ F.toFloat (ymax - ymin) > 1 / 100) (js : List Nat) :
    ∀ s : ExtractState, (js.foldl (classBody F d xmin xmax ymin ymax) s).count
      = s.count + (js.filter (fun j => d.prob j ≠ 0)).length := by
  induction js with
  | nil => intro s; simp
  | cons j js ih =>
    intro s
    rw [List.foldl_cons, ih]
    by_cases hp : d.prob j = 0
    · rw [classBody_skip_prob F d xmin xmax ymin ymax s j hp]
      simp [hp]
    · rw [classBody_emit F d xmin xmax ymin ymax s j hp hsz]
      simp [hp]
      omega

theorem foldl_classBody_below (F : FloatArith) (d : detection) (xmin xmax ymin ymax : ℚ)
    (js : List Nat) :
    ∀ (s : ExtractState) (i : Nat), i < s.count →
      (js.foldl (classBody F d xmin xmax ymin ymax) s).roiBoxes_ i = s.roiBoxes_ i := by
  induction js with
  | nil => intro s i _; rfl
  | cons j js ih =>
    intro s i hi
    rw [List.foldl_cons]
    by_cases hp : d.prob j = 0
    · rw [classBody_skip_prob F d xmin xmax ymin ymax s j hp]; exact ih s i hi
    · by_cases hsz : F.toFloat (xmax - xmin) > 1 / 100 ∧ F.toFloat (ymax - ymin) > 1 / 100
      · rw [classBody_emit F d xmin xmax ymin ymax s j hp hsz]
        rw [ih _ i (Nat.lt_succ_of_lt hi)]
        exact Function.update_noteq (Nat.ne_of_lt hi) _ _
      · rw [classBody_skip_size F d xmin xmax ymin ymax s j hsz]; exact ih s i hi

theorem foldl_classBody_above (F : FloatArith) (d : detection) (xmin xmax ymin ymax : ℚ)
    (js : List Nat) :
    ∀ (s : ExtractState) (i : Nat),
      (js.foldl (classBody F d xmin xmax ymin ymax) s).count ≤ i →
      (js.foldl (classBody F d xmin xmax ymin ymax) s).roiBoxes_ i = s.roiBoxes_ i := by
  induction js with
  | nil => intro s i _; rfl
  | cons j js ih =>
    intro s i hi
    rw [List.foldl_cons] at hi ⊢
    by_cases hp : d.prob j = 0
    · rw [classBody_skip_prob F d xmin xmax ymin ymax s j hp] at hi ⊢; exact ih s i hi
    · by_cases hsz : F.toFloat (xmax - xmin) > 1 / 100 ∧ F.toFloat (ymax - ymin) > 1 / 100
      · rw [classBody_emit F d xmin xmax ymin ymax s j hp hsz] at hi ⊢
        rw [ih _ i hi]
        rw [foldl_classBody_count F d xmin xmax ymin ymax hsz] at hi
        have : s.count < i := by
          have h2 : s.count + 1 ≤ i := le_trans (Nat.le_add_right _ _) hi
          omega
        exact Function.update_noteq (Nat.ne_of_gt this) _ _
      · rw [classBody_skip_size F d xmin xmax ymin ymax s j hsz] at hi ⊢; exact ih s i hi

theorem foldl_classBody_emitted (F : FloatArith) (d : detection) (xmin xmax ymin ymax : ℚ)
    (hsz : F.toFloat (xmax - xmin) > 1 / 100 ∧ F.toFloat (ymax - ymin) > 1 / 100) (js : List Nat) :
    ∀ (s : ExtractState) (m : Nat) (j : Nat),
      (js.filter (fun j => d.prob j ≠ 0))[m]? = some j →
      (js.foldl (classBody F d xmin xmax ymin ymax) s).roiBoxes_ (s.count + m) =
        { s.roiBoxes_ (s.count + m) with
          x := F.toFloat (F.toFloat (xmin + xmax) / 2),
            y := F.toFloat (F.toFloat (ymin + ymax) / 2), w := F.toFloat (xmax - xmin),
          h := F.toFloat (ymax - ymin), Class := (j : Int), prob := d.prob j } := by
  induction js with
  | nil => intro s m j h; simp at h
  | cons k js ih =>
    intro s m j h
    rw [List.foldl_cons]
    by_cases hp : d.prob k = 0
    · rw [classBody_skip_prob F d xmin xmax ymin ymax s k hp]
      apply ih s m j
      simpa [hp] using h
    · have hc := classBody_emit F d xmin xmax ymin ymax s k hp hsz
      have hcount : (classBody F d xmin xmax ymin ymax s k).count = s.count + 1 := by rw [hc]
      have hroi : ∀ i, i ≠ s.count →
          (classBody F d xmin xmax ymin ymax s k).roiBoxes_ i = s.roiBoxes_ i := by
        intro i hi; rw [hc]; exact Function.update_noteq hi _ _
      have hf : (k :: js).filter (fun j => d.prob j ≠ 0)
          = k :: js.filter (fun j => d.prob j ≠ 0) := by simp [hp]
      rw [hf] at h
      cases m with
      | zero =>
        simp at h
        subst h
        rw [foldl_classBody_below F _ _ _ _ _ _ _ _ (by rw [hcount]; omega), hc]
        simp
      | succ m =>
        rw [List.getElem?_cons_succ] at h
        have := ih (classBody F d xmin xmax ymin ymax s k) m j h
        have e : s.count + 1 + m = s.count + (m + 1) := by omega
        rw [hcount, e] at this
        rw [this, hroi _ (by omega)]

/-- C3: for a detection whose clamped width and height both exceed 0.01, the
class loop of `detectInThread` stores exactly one box per class `j` below
`demoClasses_` with `prob[j] != 0`, in increasing `j`, carrying `Class = j`
and `prob = prob[j]` (so `count` grows by the number of non-zero class
probabilities, and nothing else of the array changes); a detection failing
the size test stores nothing. -/
theorem C3_one_box_per_nonzero_class (F : FloatArith) (demoClasses_ : Nat) (d : detection)
    (s : ExtractState) :
    (sizeOk F d →
      (detBody F demoClasses_ s d).count = s.count + (nonzeroClasses demoClasses_ d).length ∧
      (∀ m j, (nonzeroClasses demoClasses_ d)[m]? = some j →
        (detBody F demoClasses_ s d).roiBoxes_ (s.count + m)
          = boxFor F d j (s.roiBoxes_ (s.count + m))) ∧
      (∀ i, i < s.count ∨ s.count + (nonzeroClasses demoClasses_ d).length ≤ i →
        (detBody F demoClasses_ s d).roiBoxes_ i = s.roiBoxes_ i)) ∧
    (¬ sizeOk F d → detBody F demoClasses_ s d = s) ∧
    (∀ j, j ∈ nonzeroClasses demoClasses_ d ↔ j < demoClasses_ ∧ d.prob j ≠ 0) ∧
    (nonzeroClasses demoClasses_ d).Pairwise (fun a b => a < b) := by
  refine ⟨fun hsz => ⟨?_, ?_, ?_⟩, fun hsz => ?_, fun j => ?_, ?_⟩
  · exact foldl_classBody_count F d _ _ _ _ hsz _ s
  · intro m j h
    exact foldl_classBody_emitted F d _ _ _ _ hsz _ s m j h
  · intro i hi
    rcases hi with hi | hi
    · exact foldl_classBody_below F d _ _ _ _ _ s i hi
    · apply foldl_classBody_above F d _ _ _ _ _ s i
      rw [foldl_classBody_count F d _ _ _ _ hsz _ s]
      exact hi
  · exact foldl_classBody_of_not_sizeOk F d _ _ _ _ hsz _ s
  · simp [nonzeroClasses, List.mem_filter]
  · exact List.Pairwise.filter _ (List.pairwise_lt_range demoClasses_)

theorem sampleDetection_sizeOk : sizeOk FloatArith.exact sampleDetection := by
  norm_num [sizeOk, clampedXmax, clampedXmin, clampedYmax, clampedYmin, sampleDetection,
    FloatArith.exact]

theorem nonzeroClasses_sample : nonzeroClasses 3 sampleDetection = [0, 2] := by
  simp [nonzeroClasses, sampleDetection, List.range_succ, List.filter]

/-- C3 at a sample: the detection with non-zero probability for classes 0 and
2 of 3 stores two boxes. -/
theorem C3_one_box_per_nonzero_class_witness :
    (detBody FloatArith.exact 3 { roiBoxes_ := zeroBoxes, count := 0 } sampleDetection).count = 0 + 2 := by
  have h := ((C3_one_box_per_nonzero_class FloatArith.exact 3 sampleDetection
    { roiBoxes_ := zeroBoxes, count := 0 }).1 sampleDetection_sizeOk).1
  rw [nonzeroClasses_sample] at h
  exact h

theorem extractBoxes_sample_count :
    (extractBoxes FloatArith.exact 3 [sampleDetection] zeroBoxes).count = 2 := by
  rw [extractBoxes_count]
  have h := foldl_classBody_count FloatArith.exact sampleDetection _ _ _ _ sampleDetection_sizeOk (List.range 3)
    { roiBoxes_ := zeroBoxes, count := 0 }
  have e : (List.range 3).filter (fun j => sampleDetection.prob j ≠ 0) = [0, 2] :=
    nonzeroClasses_sample
  rw [e] at h
  exact h

/-- C1 at a sample: the second box stored for the sample detection passes the
bound. -/
theorem C1_emitted_box_exceeds_one_percent_witness :
    ((extractBoxes FloatArith.exact 3 [sampleDetection] zeroBoxes).roiBoxes_ 1).w > 1 / 100 ∧
    ((extractBoxes FloatArith.exact 3 [sampleDetection] zeroBoxes).roiBoxes_ 1).h > 1 / 100 :=
  C1_emitted_box_exceeds_one_percent FloatArith.exact 3 [sampleDetection] zeroBoxes 1
    (by rw [extractBoxes_sample_count]; decide)

/-! ## Theorems: temporal averaging -/

theorem rememberNetwork_other (net : network) (predictions_ : Nat → Nat → ℚ) (idx j : Nat)
    (hj : j ≠ idx) : rememberNetwork net predictions_ idx j = predictions_ j := by
  unfold rememberNetwork
  exact Function.update_noteq hj _ _

theorem snapshot_sampleNet_zero : snapshot sampleNet 0 = 2 := by
  simp [snapshot, sampleNet, isHead]

theorem advance_index_lt (st : RingState) : (advance st).buffIndex_ < 3 :=
  Nat.mod_lt _ (by decide)

theorem fetchSlot_ne_detectSlot (b : Nat) (hb : b < 3) : fetchSlot b ≠ detectSlot b := by
  unfold fetchSlot detectSlot
  intro h
  have h3 : (b + 2) % 3 = b := h.symm
  have : b < 3 := hb
  omega

theorem detectSlot_advance (b : Nat) (hb : b < 3) : detectSlot ((b + 1) % 3) = b := by
  unfold detectSlot
  omega

theorem ringAfter_succ_index (init : RingState) (inps : Nat → CameraInput) (n : Nat) :
    (ringAfter init inps (n + 1)).buffIndex_ = (ringDuring init inps n).buffIndex_ := rfl

theorem ringAfter_succ_letter (init : RingState) (inps : Nat → CameraInput) (n : Nat) :
    (ringAfter init inps (n + 1)).buffLetter_ (fetchSlot (ringDuring init inps n).buffIndex_)
      = (inps n).camImageCopy_ := by
  simp [ringAfter, yoloCycle, fetchInThread, ringDuring]

theorem detectView_fetch_of_index_ne_zero (dims : Image → Nat × Nat) (inp : CameraInput)
    (st : RingState) (hb : (advance st).buffIndex_ ≠ 0) :
    detectView dims (fetchInThread inp (advance st)) = detectView dims (advance st) := by
  have hlt : (advance st).buffIndex_ < 3 := advance_index_lt st
  have hne : detectSlot (advance st).buffIndex_ ≠ fetchSlot (advance st).buffIndex_ :=
    Ne.symm (fetchSlot_ne_detectSlot _ hlt)
  have h0 : (0 : Nat) ≠ fetchSlot (advance st).buffIndex_ := Ne.symm hb
  simp only [detectView, fetchInThread, Function.update_noteq hne, Function.update_noteq h0]

/-- C4: evaluation of the code on a run where the claim fails. From index 0
the third cycle has `buffIndex_ = 0`: `fetchInThread` writes slot 0 while
`detectInThread` reads, besides slot 2, the width and height of `buff_[0]`.
Before the fetch has written, the run of detect sees the size (640, 480) of
image 100; after it, the size (1280, 720) of image 103. -/
theorem C4_detect_reads_slot_zero_while_fetch_writes_it :
    (ringDuring sampleRing sampleInputs 2).buffIndex_ = 0 ∧
    fetchSlot (ringDuring sampleRing sampleInputs 2).buffIndex_ = 0 ∧
    detectSlot (ringDuring sampleRing sampleInputs 2).buffIndex_ = 2 ∧
    (ringDuring sampleRing sampleInputs 2).buff_ 0 = 100 ∧
    (fetchInThread (sampleInputs 2) (ringDuring sampleRing sampleInputs 2)).buff_ 0 = 103 ∧
    detectView sampleDims (ringDuring sampleRing sampleInputs 2) = (102, (640, 480), 102) ∧
    detectView sampleDims (fetchInThread (sampleInputs 2) (ringDuring sampleRing sampleInputs 2))
      = (102, (1280, 720), 102) := by
  refine ⟨?_, ?_, ?_, ?_, ?_, ?_, ?_⟩ <;> decide

/-- C5: in every cycle after the first, the slot `detectInThread` reads is the
slot `fetchInThread` wrote in the cycle just before, and the tensor it reads
there is the letterboxed image of that fetch; the fetch of the current cycle
does not touch it. -/
theorem C5_detect_reads_previous_fetch (init : RingState) (inps : Nat → CameraInput)
    (n : Nat) :
    detectSlot (ringDuring init inps (n + 1)).buffIndex_
      = fetchSlot (ringDuring init inps n).buffIndex_ ∧
    detectInput (ringDuring init inps (n + 1)) = (inps n).camImageCopy_ ∧
    (ringAfter init inps (n + 2)).buffLetter_
        (detectSlot (ringDuring init inps (n + 1)).buffIndex_) = (inps n).camImageCopy_ := by
  have hb : (ringDuring init inps n).buffIndex_ < 3 := advance_index_lt _
  have hslot : detectSlot (ringDuring init inps (n + 1)).buffIndex_
      = fetchSlot (ringDuring init inps n).buffIndex_ := by
    have e : (ringDuring init inps (n + 1)).buffIndex_
        = ((ringDuring init inps n).buffIndex_ + 1) % 3 := rfl
    rw [e, detectSlot_advance _ hb]
    rfl
  have hread : detectInput (ringDuring init inps (n + 1)) = (inps n).camImageCopy_ := by
    unfold detectInput
    rw [hslot]
    exact ringAfter_succ_letter init inps n
  refine ⟨hslot, hread, ?_⟩
  have hne : fetchSlot (ringDuring init inps (n + 1)).buffIndex_
      ≠ detectSlot (ringDuring init inps (n + 1)).buffIndex_ :=
    fetchSlot_ne_detectSlot _ (advance_index_lt (ringAfter init inps (n + 1)))
  have e2 : (ringAfter init inps (n + 2)).buffLetter_
      = Function.update (ringDuring init inps (n + 1)).buffLetter_
          (fetchSlot (ringDuring init inps (n + 1)).buffIndex_) (inps (n + 1)).camImageCopy_ := rfl
  rw [e2, Function.update_noteq (Ne.symm hne)]
  exact hread

/-- C9: evaluation of the code on a run where the claim fails. A request with
id 7 is accepted and three cycles run; then a request with id 42 is accepted
and one cycle runs (index 1, so the fetch stores 42 in `buffId_[1]`). The
result sent for request 42 carries `buffId_[0]`, which is 7, the id of the
earlier request; the result for request 7 itself carried the initial content
of `buffId_[0]`. -/
theorem C9_result_id_is_slot_zero :
    (runNode [NodeEvent.goal 7 101, NodeEvent.cycle, NodeEvent.cycle, NodeEvent.cycle,
        NodeEvent.goal 42 102, NodeEvent.cycle] sampleNode).2
      = [some 0, none, none, some 7] ∧
    (runNode [NodeEvent.goal 7 101, NodeEvent.cycle, NodeEvent.cycle, NodeEvent.cycle,
        NodeEvent.goal 42 102, NodeEvent.cycle] sampleNode).1.ring.buffId_ 1 = 42 := by
  refine ⟨?_, ?_⟩ <;> decide

/-! ## Theorems: calibration and depth back-projection -/

/-- C6: `cameraDepthInfoCallback` replaces the calibration (fx = K[0],
fy = K[4], cx = K[2], cy = K[5] and the frame id) exactly when the distortion
model of the message is `"plumb_bob"`; a message with any other distortion
model leaves all five fields unchanged. -/
theorem C6_calibration_updated_iff_plumb_bob (depthInfoMsg : CameraInfo) (c : Calibration) :
    (depthInfoMsg.distortion_model = "plumb_bob" →
      (cameraDepthInfoCallback depthInfoMsg c).intrin_fx_ = depthInfoMsg.K 0 ∧
      (cameraDepthInfoCallback depthInfoMsg c).intrin_fy_ = depthInfoMsg.K 4 ∧
      (cameraDepthInfoCallback depthInfoMsg c).intrin_cx_ = depthInfoMsg.K 2 ∧
      (cameraDepthInfoCallback depthInfoMsg c).intrin_cy_ = depthInfoMsg.K 5 ∧
      (cameraDepthInfoCallback depthInfoMsg c).depth_frame_ = depthInfoMsg.frame_id) ∧
    (depthInfoMsg.distortion_model ≠ "plumb_bob" →
      cameraDepthInfoCallback depthInfoMsg c = c) := by
  constructor
  · intro h
    simp [cameraDepthInfoCallback, h]
  · intro h
    simp [cameraDepthInfoCallback, h]

/-- C6 at two sample messages: a `"plumb_bob"` message sets `cx` to `K[2]`, an
`"equidistant"` one changes nothing. -/
theorem C6_calibration_updated_iff_plumb_bob_witness :
    (cameraDepthInfoCallback
        { frame_id := "camera_color_optical_frame", distortion_model := "plumb_bob",
          K := fun i => Fl.fin (600 + i) } Calibration.zero).intrin_cx_ = Fl.fin (600 + (2 : Nat)) ∧
    cameraDepthInfoCallback
        { frame_id := "camera_color_optical_frame", distortion_model := "equidistant",
          K := fun i => Fl.fin (600 + i) } Calibration.zero = Calibration.zero :=
  ⟨((C6_calibration_updated_iff_plumb_bob
      { frame_id := "camera_color_optical_frame", distortion_model := "plumb_bob",
        K := fun i => Fl.fin (600 + i) } Calibration.zero).1 rfl).2.2.1,
   (C6_calibration_updated_iff_plumb_bob
      { frame_id := "camera_color_optical_frame", distortion_model := "equidistant",
        K := fun i => Fl.fin (600 + i) } Calibration.zero).2 (by decide)⟩

theorem roundQ_natCast (d : Nat) : Fl.roundQ (d : ℚ) = (d : Int) := by
  unfold Fl.roundQ
  have h0 : (0 : ℚ) ≤ (d : ℚ) := Nat.cast_nonneg d
  rw [if_pos h0, Int.floor_eq_iff]
  constructor
  · push_cast; linarith
  · push_cast; linarith

theorem objDepth_value (d : Nat) :
    Fl.div (Fl.round (Fl.fin ((1 / 1000) * (d : ℚ) * 1000))) (Fl.fin 1000)
      = Fl.fin ((d : ℚ) / 1000) := by
  have e : (1 / 1000 : ℚ) * (d : ℚ) * 1000 = (d : ℚ) := by ring
  rw [e]
  simp [Fl.round, Fl.div, roundQ_natCast]

theorem associateDepth_of_sample (img : DepthImage) (c : Calibration) (bbox : BoundingBox)
    (msg : ObjDepth) (d : Nat)
    (hread : img.at (pixelCenterV bbox) (pixelCenterU bbox) = some d) :
    associateDepth img c bbox msg =
      { objID := bbox.id,
        className := bbox.Class,
        classType := "To be decided",
        objDepth := Fl.div (Fl.round (Fl.fin ((1 / 1000) * (d : ℚ) * 1000))) (Fl.fin 1000),
        objX := Fl.div (Fl.round (Fl.div (Fl.mul (Fl.mul (Fl.sub (Fl.ofInt (pixelCenterU bbox))
                  c.intrin_cx_) (Fl.fin ((1 / 1000) * (d : ℚ)))) (Fl.fin 1000)) c.intrin_fx_))
                  (Fl.fin 1000),
        objY := Fl.div (Fl.round (Fl.div (Fl.mul (Fl.mul (Fl.sub (Fl.ofInt (pixelCenterV bbox))
                  c.intrin_cy_) (Fl.fin ((1 / 1000) * (d : ℚ)))) (Fl.fin 1000)) c.intrin_fy_))
                  (Fl.fin 1000),
        bbox_center_u := pixelCenterU bbox,
        bbox_center_v := pixelCenterV bbox } := by
  unfold associateDepth
  simp only [hread]

/-- The back-projected coordinate for a pixel coordinate equal to the
principal point is 0 when the focal length is neither zero nor NaN. -/
theorem backProject_at_principal (u : Int) (Z : ℚ) (f : Fl) (hf0 : f ≠ Fl.fin 0)
    (hfn : f ≠ Fl.nan) :
    Fl.div (Fl.round (Fl.div (Fl.mul (Fl.mul (Fl.sub (Fl.ofInt u) (Fl.ofInt u)) (Fl.fin Z))
      (Fl.fin 1000)) f)) (Fl.fin 1000) = Fl.fin 0 := by
  have hr : Fl.roundQ 0 = 0 := by norm_num [Fl.roundQ]
  cases f with
  | fin b =>
    have hb : b ≠ 0 := fun h => hf0 (by rw [h])
    simp [Fl.sub, Fl.ofInt, Fl.mul, Fl.div, Fl.round, hb, hr]
  | inf s => simp [Fl.sub, Fl.ofInt, Fl.mul, Fl.div, Fl.round, hr]
  | nan => exact absurd rfl hfn

theorem Fl.div_fin_zero (a : ℚ) :
    Fl.div (Fl.fin a) (Fl.fin 0) = if a = 0 then Fl.nan else Fl.inf (decide (a < 0)) := by
  simp [Fl.div]

/-- The back-projected coordinate is never finite when both the principal
point coordinate and the focal length are zero. -/
theorem backProject_zero_calibration (u : Int) (Z : ℚ) :
    (Fl.div (Fl.round (Fl.div (Fl.mul (Fl.mul (Fl.sub (Fl.ofInt u) (Fl.fin 0)) (Fl.fin Z))
      (Fl.fin 1000)) (Fl.fin 0))) (Fl.fin 1000)).isFinite = false := by
  have e : Fl.mul (Fl.mul (Fl.sub (Fl.ofInt u) (Fl.fin 0)) (Fl.fin Z)) (Fl.fin 1000)
      = Fl.fin (((u : ℚ) - 0) * Z * 1000) := rfl
  rw [e, Fl.div_fin_zero]
  by_cases h : ((u : ℚ) - 0) * Z * 1000 = 0
  · rw [if_pos h]; rfl
  · rw [if_neg h]; rfl

theorem sampleBBox_center : pixelCenterU sampleBBox = 320 ∧ pixelCenterV sampleBBox = 240 := by
  constructor <;> decide

theorem sampleBBox_read :
    (constDepth 480 640 1500).at (pixelCenterV sampleBBox) (pixelCenterU sampleBBox)
      = some 1500 := by
  decide

/-- C7 (as stated, refuted): the box of `sampleBBox` is centred at the
principal point (320, 240) of a calibration whose focal lengths are 0; on a
depth image of constant depth 1500 the estimate has `objX` and `objY` NaN
(the quotient `0 / 0`), not 0. -/
theorem C7_zero_focal_length_gives_nan :
    Fl.ofInt (pixelCenterU sampleBBox) = zeroFocalCalibration.intrin_cx_ ∧
    Fl.ofInt (pixelCenterV sampleBBox) = zeroFocalCalibration.intrin_cy_ ∧
    (associateDepth (constDepth 480 640 1500) zeroFocalCalibration sampleBBox
        ObjDepth.default).objX = Fl.nan ∧
    (associateDepth (constDepth 480 640 1500) zeroFocalCalibration sampleBBox
        ObjDepth.default).objY = Fl.nan ∧
    (associateDepth (constDepth 480 640 1500) zeroFocalCalibration sampleBBox
        ObjDepth.default).objX ≠ Fl.fin 0 := by
  have hx : (associateDepth (constDepth 480 640 1500) zeroFocalCalibration sampleBBox
        ObjDepth.default).objX = Fl.nan := by
    rw [associateDepth_of_sample _ _ _ _ 1500 sampleBBox_read, sampleBBox_center.1]
    simp [zeroFocalCalibration, Fl.sub, Fl.ofInt, Fl.mul, Fl.div, Fl.round]
  have hy : (associateDepth (constDepth 480 640 1500) zeroFocalCalibration sampleBBox
        ObjDepth.default).objY = Fl.nan := by
    rw [associateDepth_of_sample _ _ _ _ 1500 sampleBBox_read, sampleBBox_center.2]
    simp [zeroFocalCalibration, Fl.sub, Fl.ofInt, Fl.mul, Fl.div, Fl.round]
  refine ⟨?_, ?_, hx, hy, ?_⟩
  · rw [sampleBBox_center.1]; rfl
  · rw [sampleBBox_center.2]; rfl
  · rw [hx]; exact fun h => Fl.noConfusion h

/-- C7 (amended): for every constant depth value `Z0` and every calibration
whose focal lengths are neither zero nor NaN, if the centre `(u, v)` that
`associateDepth` computes for a pixel box equals the principal point
`(cx, cy)` (and the depth sample there can be read), the estimate has
`objX = 0`, `objY = 0` and `objDepth = Z0 / 1000`, the depth in metres. -/
theorem C7_centre_at_principal_point (img : DepthImage) (c : Calibration) (bbox : BoundingBox)
    (msg : ObjDepth) (Z0 : Nat)
    (hread : img.at (pixelCenterV bbox) (pixelCenterU bbox) = some Z0)
    (hcx : c.intrin_cx_ = Fl.ofInt (pixelCenterU bbox))
    (hcy : c.intrin_cy_ = Fl.ofInt (pixelCenterV bbox))
    (hfx0 : c.intrin_fx_ ≠ Fl.fin 0) (hfxn : c.intrin_fx_ ≠ Fl.nan)
    (hfy0 : c.intrin_fy_ ≠ Fl.fin 0) (hfyn : c.intrin_fy_ ≠ Fl.nan) :
    (associateDepth img c bbox msg).objX = Fl.fin 0 ∧
    (associateDepth img c bbox msg).objY = Fl.fin 0 ∧
    (associateDepth img c bbox msg).objDepth = Fl.fin ((Z0 : ℚ) / 1000) := by
  rw [associateDepth_of_sample img c bbox msg Z0 hread]
  refine ⟨?_, ?_, ?_⟩
  · show Fl.div (Fl.round (Fl.div (Fl.mul (Fl.mul (Fl.sub (Fl.ofInt (pixelCenterU bbox))
      c.intrin_cx_) (Fl.fin ((1 / 1000) * (Z0 : ℚ)))) (Fl.fin 1000)) c.intrin_fx_))
      (Fl.fin 1000) = Fl.fin 0
    rw [hcx]
    exact backProject_at_principal _ _ _ hfx0 hfxn
  · show Fl.div (Fl.round (Fl.div (Fl.mul (Fl.mul (Fl.sub (Fl.ofInt (pixelCenterV bbox))
      c.intrin_cy_) (Fl.fin ((1 / 1000) * (Z0 : ℚ)))) (Fl.fin 1000)) c.intrin_fy_))
      (Fl.fin 1000) = Fl.fin 0
    rw [hcy]
    exact backProject_at_principal _ _ _ hfy0 hfyn
  · exact objDepth_value Z0

/-- C7 (amended) at a sample: focal lengths 600, box centred at the principal
point (320, 240), constant depth 1500. -/
theorem C7_centre_at_principal_point_witness :
    (associateDepth (constDepth 480 640 1500) sampleCalibration sampleBBox
        ObjDepth.default).objX = Fl.fin 0 ∧
    (associateDepth (constDepth 480 640 1500) sampleCalibration sampleBBox
        ObjDepth.default).objY = Fl.fin 0 ∧
    (associateDepth (constDepth 480 640 1500) sampleCalibration sampleBBox
        ObjDepth.default).objDepth = Fl.fin (((1500 : Nat) : ℚ) / 1000) :=
  C7_centre_at_principal_point (constDepth 480 640 1500) sampleCalibration sampleBBox
    ObjDepth.default 1500 sampleBBox_read
    (by rw [sampleBBox_center.1]; rfl) (by rw [sampleBBox_center.2]; rfl)
    (by simp [sampleCalibration]) (by simp [sampleCalibration])
    (by simp [sampleCalibration]) (by simp [sampleCalibration])

/-- C8 (as stated, refuted): with the all-zero calibration, the estimate for
`sampleBBox` (centre (320, 240)) on a depth image of constant depth 1500 has
`objX` and `objY` equal to `+inf`, not 0. -/
theorem C8_zero_calibration_gives_infinity :
    (associateDepth (constDepth 480 640 1500) Calibration.zero sampleBBox
        ObjDepth.default).objX = Fl.inf false ∧
    (associateDepth (constDepth 480 640 1500) Calibration.zero sampleBBox
        ObjDepth.default).objY = Fl.inf false ∧
    (associateDepth (constDepth 480 640 1500) Calibration.zero sampleBBox
        ObjDepth.default).objX ≠ Fl.fin 0 := by
  have hx : (associateDepth (constDepth 480 640 1500) Calibration.zero sampleBBox
        ObjDepth.default).objX = Fl.inf false := by
    rw [associateDepth_of_sample _ _ _ _ 1500 sampleBBox_read, sampleBBox_center.1]
    norm_num [Calibration.zero, Fl.sub, Fl.ofInt, Fl.mul, Fl.div, Fl.round]
  have hy : (associateDepth (constDepth 480 640 1500) Calibration.zero sampleBBox
        ObjDepth.default).objY = Fl.inf false := by
    rw [associateDepth_of_sample _ _ _ _ 1500 sampleBBox_read, sampleBBox_center.2]
    norm_num [Calibration.zero, Fl.sub, Fl.ofInt, Fl.mul, Fl.div, Fl.round]
  refine ⟨hx, hy, ?_⟩
  rw [hx]; exact fun h => Fl.noConfusion h

/-- C8 (amended): with the all-zero calibration (cx = cy = fx = fy = 0),
`associateDepth` still returns an estimate for every pixel box whose depth
sample can be read: `objDepth` is the sample in metres and the pixel centre
is reported, but `objX` and `objY` are never finite (an infinity or NaN, the
quotient by the zero focal length), so they are not 0. -/
theorem C8_zero_calibration_estimate (img : DepthImage) (bbox : BoundingBox) (msg : ObjDepth)
    (sample : Nat)
    (hread : img.at (pixelCenterV bbox) (pixelCenterU bbox) = some sample) :
    (associateDepth img Calibration.zero bbox msg).objDepth = Fl.fin ((sample : ℚ) / 1000) ∧
    (associateDepth img Calibration.zero bbox msg).bbox_center_u = pixelCenterU bbox ∧
    (associateDepth img Calibration.zero bbox msg).bbox_center_v = pixelCenterV bbox ∧
    (associateDepth img Calibration.zero bbox msg).objX.isFinite = false ∧
    (associateDepth img Calibration.zero bbox msg).objY.isFinite = false ∧
    (associateDepth img Calibration.zero bbox msg).objX ≠ Fl.fin 0 ∧
    (associateDepth img Calibration.zero bbox msg).objY ≠ Fl.fin 0 := by
  rw [associateDepth_of_sample img Calibration.zero bbox msg sample hread]
  have hx := backProject_zero_calibration (pixelCenterU bbox) ((1 / 1000) * (sample : ℚ))
  have hy := backProject_zero_calibration (pixelCenterV bbox) ((1 / 1000) * (sample : ℚ))
  refine ⟨objDepth_value sample, rfl, rfl, hx, hy, ?_, ?_⟩
  · intro h
    have h2 := hx
    simp only [Calibration.zero] at h
    rw [h] at h2
    exact absurd h2 (by simp [Fl.isFinite])
  · intro h
    have h2 := hy
    simp only [Calibration.zero] at h
    rw [h] at h2
    exact absurd h2 (by simp [Fl.isFinite])

/-- C8 (amended) at a sample: the all-zero calibration, box centred at
(320, 240), constant depth 1500. -/
theorem C8_zero_calibration_estimate_witness :
    (associateDepth (constDepth 480 640 1500) Calibration.zero sampleBBox
        ObjDepth.default).objX.isFinite = false :=
  (C8_zero_calibration_estimate (constDepth 480 640 1500) sampleBBox ObjDepth.default 1500
    sampleBBox_read).2.2.2.1

/-! ## Theorems: publication -/

theorem foldl_classBody_all_zero (F : FloatArith) (d : detection) (xmin xmax ymin ymax : ℚ)
    (js : List Nat)
    (hz : ∀ j ∈ js, d.prob j = 0) :
    ∀ s : ExtractState, js.foldl (classBody F d xmin xmax ymin ymax) s = s := by
  induction js with
  | nil => intro s; rfl
  | cons j js ih =>
    intro s
    rw [List.foldl_cons,
      classBody_skip_prob F d xmin xmax ymin ymax s j (hz j (List.mem_cons_self j js))]
    exact ih (fun k hk => hz k (List.mem_cons_of_mem j hk)) s

theorem detBody_nothing (F : FloatArith) (demoClasses_ : Nat) (d : detection) (s : ExtractState)
    (h : sizeOk F d → ∀ j, j < demoClasses_ → d.prob j = 0) : detBody F demoClasses_ s d = s := by
  by_cases hsz : sizeOk F d
  · exact foldl_classBody_all_zero F d _ _ _ _ _
      (fun j hj => h hsz j (List.mem_range.mp hj)) s
  · exact foldl_classBody_of_not_sizeOk F d _ _ _ _ hsz _ s

theorem foldl_detBody_nothing (F : FloatArith) (demoClasses_ : Nat) (dets : List detection)
    (h : ∀ d ∈ dets, sizeOk F d → ∀ j, j < demoClasses_ → d.prob j = 0) :
    ∀ s : ExtractState, dets.foldl (detBody F demoClasses_) s = s := by
  induction dets with
  | nil => intro s; rfl
  | cons d ds ih =>
    intro s
    rw [List.foldl_cons, detBody_nothing F demoClasses_ d s (h d (List.mem_cons_self d ds))]
    exact ih (fun e he => h e (List.mem_cons_of_mem d he)) s

theorem extractBoxes_nothing (F : FloatArith) (demoClasses_ : Nat) (dets : List detection)
    (roiBoxes_ : Nat → RosBox_)
    (h : ∀ d ∈ dets, sizeOk F d → ∀ j, j < demoClasses_ → d.prob j = 0) :
    extractBoxes F demoClasses_ dets roiBoxes_ =
      { roiBoxes_ := Function.update roiBoxes_ 0 { roiBoxes_ 0 with num := 0 }, count := 0 } := by
  have e : extractLoop F demoClasses_ dets roiBoxes_ = { roiBoxes_ := roiBoxes_, count := 0 } :=
    foldl_detBody_nothing F demoClasses_ dets h _
  unfold extractBoxes
  rw [e]
  simp

theorem publishInThread_of_num_zero (checking : Bool) (st : PublishState)
    (h : (st.roiBoxes_ 0).num = 0) :
    (publishInThread checking st).1 = Published.objectCount 0 ::
      (if checking then [Published.actionResult (st.buffId_ 0) st.boundingBoxesResults_]
       else []) := by
  unfold publishInThread
  simp [h]

theorem publishInThread_clears (checking : Bool) (st : PublishState) :
    (publishInThread checking st).2.boundingBoxesResults_ = [] := by
  unfold publishInThread
  simp [clearBoxes]

/-- C10: for every frame size and every state with no box pending, if no
detection has a non-zero class probability together with an admissible size,
the extraction stores no box and sets `roiBoxes_[0].num` to 0, and
`publishInThread` then publishes an `ObjectCount` with `count = 0`, no
bounding-box message and no depth message (a one-shot result, when one is
due, carries an empty box list). -/
theorem C10_zero_boxes_publish_zero (F : FloatArith) (demoClasses_ : Nat) (dets : List detection)
    (st : PublishState) (checking : Bool)
    (hnone : ∀ d ∈ dets, sizeOk F d → ∀ j, j < demoClasses_ → d.prob j = 0)
    (hpending : st.boundingBoxesResults_ = []) :
    (extractBoxes F demoClasses_ dets st.roiBoxes_).count = 0 ∧
    ((extractBoxes F demoClasses_ dets st.roiBoxes_).roiBoxes_ 0).num = 0 ∧
    (publishInThread checking
        { st with roiBoxes_ := (extractBoxes F demoClasses_ dets st.roiBoxes_).roiBoxes_ }).1
      = Published.objectCount 0 ::
          (if checking then [Published.actionResult (st.buffId_ 0) []] else []) ∧
    (∀ p ∈ (publishInThread checking
        { st with roiBoxes_ := (extractBoxes F demoClasses_ dets st.roiBoxes_).roiBoxes_ }).1,
      p.carriesNoBoxes) := by
  have e := extractBoxes_nothing F demoClasses_ dets st.roiBoxes_ hnone
  have hnum : ((extractBoxes F demoClasses_ dets st.roiBoxes_).roiBoxes_ 0).num = 0 := by
    rw [e]; simp
  have hpub : (publishInThread checking
        { st with roiBoxes_ := (extractBoxes F demoClasses_ dets st.roiBoxes_).roiBoxes_ }).1
      = Published.objectCount 0 ::
          (if checking then [Published.actionResult (st.buffId_ 0) []] else []) := by
    rw [publishInThread_of_num_zero checking _ hnum]
    simp [hpending]
  refine ⟨by rw [e], hnum, hpub, ?_⟩
  intro p hp
  rw [hpub] at hp
  cases checking with
  | false =>
    simp at hp
    subst hp
    trivial
  | true =>
    simp at hp
    rcases hp with hp | hp
    · subst hp; trivial
    · subst hp; rfl

/-- C10 at a sample: a 640 x 480 frame and one detection whose class
probabilities are all zero. -/
theorem C10_zero_boxes_publish_zero_witness :
    (publishInThread false
        { samplePublishState with
          roiBoxes_ := (extractBoxes FloatArith.exact 3 [faintDetection] samplePublishState.roiBoxes_).roiBoxes_ }).1
      = Published.objectCount 0 :: (if false then [Published.actionResult
          (samplePublishState.buffId_ 0) []] else []) :=
  (C10_zero_boxes_publish_zero FloatArith.exact 3 [faintDetection] samplePublishState false
    (by intro d hd _ j _; rw [List.mem_singleton.mp hd]; rfl) rfl).2.2.1

/-! ## Theorems: emitted boxes lie inside the frame -/

theorem clampedXmin_nonneg (F : FloatArith) (d : detection) : 0 ≤ clampedXmin F d := by
  unfold clampedXmin
  dsimp only
  split_ifs with h
  · exact le_refl 0
  · exact not_lt.mp h

theorem clampedYmin_nonneg (F : FloatArith) (d : detection) : 0 ≤ clampedYmin F d := by
  unfold clampedYmin
  dsimp only
  split_ifs with h
  · exact le_refl 0
  · exact not_lt.mp h

theorem clampedXmax_le_one (F : FloatArith) (d : detection) : clampedXmax F d ≤ 1 := by
  unfold clampedXmax
  dsimp only
  split_ifs with h
  · exact le_refl 1
  · exact not_lt.mp h

theorem clampedYmax_le_one (F : FloatArith) (d : detection) : clampedYmax F d ≤ 1 := by
  unfold clampedYmax
  dsimp only
  split_ifs with h
  · exact le_refl 1
  · exact not_lt.mp h

/-- One axis of a stored box: from clamped edges `0 <= a` and `b <= 1` whose
rounded difference passes the size test, the edges recomputed from the
rounded centre and the rounded size lie within `2 * eps` of [0, 1]. -/
theorem axis_near_unit (F : FloatArith) (eps : ℚ) (hF : F.Within eps) (heps : eps ≤ 2)
    (a b : ℚ) (ha : 0 ≤ a) (hb : b ≤ 1) (hw : F.toFloat (b - a) > 1 / 100) :
    -(2 * eps) ≤ F.toFloat (F.toFloat (a + b) / 2) - F.toFloat (b - a) / 2 ∧
    F.toFloat (F.toFloat (a + b) / 2) + F.toFloat (b - a) / 2 ≤ 1 + 2 * eps := by
  obtain ⟨hsign, herr⟩ := hF
  have hab : a < b := by
    by_contra hn
    have := hsign (b - a) (by linarith)
    linarith
  have he0 : 0 ≤ eps := le_trans (abs_nonneg _) (herr 0 (by norm_num))
  have hS := abs_le.mp (herr (a + b) (abs_le.mpr ⟨by linarith, by linarith⟩))
  have hX := abs_le.mp (herr (F.toFloat (a + b) / 2)
    (abs_le.mpr ⟨by linarith [hS.1], by linarith [hS.2]⟩))
  have hW := abs_le.mp (herr (b - a) (abs_le.mpr ⟨by linarith, by linarith⟩))
  constructor
  · linarith [hS.1, hX.1, hW.2]
  · linarith [hS.2, hX.2, hW.1]

theorem classBody_nearUnit (F : FloatArith) (eps : ℚ) (hF : F.Within eps) (heps : eps ≤ 2)
    (d : detection) (xmin xmax ymin ymax : ℚ)
    (hx0 : 0 ≤ xmin) (hx1 : xmax ≤ 1) (hy0 : 0 ≤ ymin) (hy1 : ymax ≤ 1)
    (s : ExtractState) (j : Nat) (hs : AllNearUnit (2 * eps) s) :
    AllNearUnit (2 * eps) (classBody F d xmin xmax ymin ymax s j) := by
  by_cases hp : d.prob j = 0
  · rw [classBody_skip_prob F d xmin xmax ymin ymax s j hp]; exact hs
  · by_cases hsz : F.toFloat (xmax - xmin) > 1 / 100 ∧ F.toFloat (ymax - ymin) > 1 / 100
    · rw [classBody_emit F d xmin xmax ymin ymax s j hp hsz]
      intro i hi
      by_cases hic : i = s.count
      · subst hic
        simp only [Function.update_same]
        obtain ⟨x1, x2⟩ := axis_near_unit F eps hF heps xmin xmax hx0 hx1 hsz.1
        obtain ⟨y1, y2⟩ := axis_near_unit F eps hF heps ymin ymax hy0 hy1 hsz.2
        exact ⟨x1, x2, y1, y2, hsz.1, hsz.2⟩
      · have hlt : i < s.count := by
          have : i < s.count + 1 := hi
          omega
        simpa [Function.update_noteq hic] using hs i hlt
    · rw [classBody_skip_size F d xmin xmax ymin ymax s j hsz]; exact hs

theorem foldl_classBody_nearUnit (F : FloatArith) (eps : ℚ) (hF : F.Within eps) (heps : eps ≤ 2)
    (d : detection) (xmin xmax ymin ymax : ℚ)
    (hx0 : 0 ≤ xmin) (hx1 : xmax ≤ 1) (hy0 : 0 ≤ ymin) (hy1 : ymax ≤ 1) (js : List Nat) :
    ∀ s : ExtractState, AllNearUnit (2 * eps) s →
      AllNearUnit (2 * eps) (js.foldl (classBody F d xmin xmax ymin ymax) s) := by
  induction js with
  | nil => intro s hs; simpa using hs
  | cons j js ih =>
    intro s hs
    rw [List.foldl_cons]
    exact ih _ (classBody_nearUnit F eps hF heps d xmin xmax ymin ymax hx0 hx1 hy0 hy1 s j hs)

theorem extractLoop_nearUnit (F : FloatArith) (eps : ℚ) (hF : F.Within eps) (heps : eps ≤ 2)
    (demoClasses_ : Nat) (dets : List detection) :
    ∀ s : ExtractState, AllNearUnit (2 * eps) s →
      AllNearUnit (2 * eps) (dets.foldl (detBody F demoClasses_) s) := by
  induction dets with
  | nil => intro s hs; simpa using hs
  | cons d ds ih =>
    intro s hs
    rw [List.foldl_cons]
    exact ih _ (foldl_classBody_nearUnit F eps hF heps d _ _ _ _ (clampedXmin_nonneg F d)
      (clampedXmax_le_one F d) (clampedYmin_nonneg F d) (clampedYmax_le_one F d) _ s hs)

theorem extractBoxes_x (F : FloatArith) (demoClasses_ : Nat) (dets : List detection)
    (roiBoxes_ : Nat → RosBox_) (i : Nat) :
    ((extractBoxes F demoClasses_ dets roiBoxes_).roiBoxes_ i).x
      = ((extractLoop F demoClasses_ dets roiBoxes_).roiBoxes_ i).x := by
  unfold extractBoxes
  by_cases h : (extractLoop F demoClasses_ dets roiBoxes_).count = 0 <;>
    by_cases hi : i = 0 <;> simp [h, hi, Function.update_noteq]

theorem extractBoxes_y (F : FloatArith) (demoClasses_ : Nat) (dets : List detection)
    (roiBoxes_ : Nat → RosBox_) (i : Nat) :
    ((extractBoxes F demoClasses_ dets roiBoxes_).roiBoxes_ i).y
      = ((extractLoop F demoClasses_ dets roiBoxes_).roiBoxes_ i).y := by
  unfold extractBoxes
  by_cases h : (extractLoop F demoClasses_ dets roiBoxes_).count = 0 <;>
    by_cases hi : i = 0 <;> simp [h, hi, Function.update_noteq]

/-- The edges and the size bound of a stored box, for an arithmetic that
rounds a `float` with an error of at most `eps`. -/
theorem extractBoxes_emitted_bounds (F : FloatArith) (eps : ℚ) (hF : F.Within eps)
    (heps : eps ≤ 2) (demoClasses_ : Nat) (dets : List detection)
    (roiBoxes_ : Nat → RosBox_) (i : Nat)
    (hi : i < (extractBoxes F demoClasses_ dets roiBoxes_).count) :
    -(2 * eps) ≤ ((extractBoxes F demoClasses_ dets roiBoxes_).roiBoxes_ i).x
          - ((extractBoxes F demoClasses_ dets roiBoxes_).roiBoxes_ i).w / 2 ∧
    ((extractBoxes F demoClasses_ dets roiBoxes_).roiBoxes_ i).x
          + ((extractBoxes F demoClasses_ dets roiBoxes_).roiBoxes_ i).w / 2 ≤ 1 + 2 * eps ∧
    -(2 * eps) ≤ ((extractBoxes F demoClasses_ dets roiBoxes_).roiBoxes_ i).y
          - ((extractBoxes F demoClasses_ dets roiBoxes_).roiBoxes_ i).h / 2 ∧
    ((extractBoxes F demoClasses_ dets roiBoxes_).roiBoxes_ i).y
          + ((extractBoxes F demoClasses_ dets roiBoxes_).roiBoxes_ i).h / 2 ≤ 1 + 2 * eps ∧
    ((extractBoxes F demoClasses_ dets roiBoxes_).roiBoxes_ i).w > 1 / 100 ∧
    ((extractBoxes F demoClasses_ dets roiBoxes_).roiBoxes_ i).h > 1 / 100 := by
  rw [extractBoxes_count] at hi
  rw [extractBoxes_w, extractBoxes_h, extractBoxes_x, extractBoxes_y]
  have h0 : AllNearUnit (2 * eps) { roiBoxes_ := roiBoxes_, count := 0 } := by
    intro k hk; exact absurd hk (Nat.not_lt_zero k)
  exact extractLoop_nearUnit F eps hF heps demoClasses_ dets _ h0 i hi

theorem cornerDetection_sizeOk : sizeOk FloatArith.exact cornerDetection := by
  norm_num [sizeOk, clampedXmax, clampedXmin, clampedYmax, clampedYmin, cornerDetection,
    FloatArith.exact]

theorem extractBoxes_corner_count :
    (extractBoxes FloatArith.exact 1 [cornerDetection] zeroBoxes).count = 1 := by
  rw [extractBoxes_count]
  have h := foldl_classBody_count FloatArith.exact cornerDetection _ _ _ _
    cornerDetection_sizeOk (List.range 1) { roiBoxes_ := zeroBoxes, count := 0 }
  have e : (List.range 1).filter (fun j => cornerDetection.prob j ≠ 0) = [0] := by
    simp [cornerDetection, List.range_succ, List.filter]
  rw [e] at h
  exact h

theorem tdiv_two_remainder (s : Int) :
    -1 ≤ s - 2 * Int.tdiv s 2 ∧ s - 2 * Int.tdiv s 2 ≤ 1 := by
  rcases Int.le_total 0 s with hs | hs
  · rw [Int.tdiv_eq_ediv hs (by decide)]
    omega
  · have e : Int.tdiv s 2 = -((-s) / 2) := by
      have h := Int.neg_tdiv (-s) 2
      rw [Int.neg_neg] at h
      rw [h, Int.tdiv_eq_ediv (by omega) (by decide)]
    rw [e]
    omega

theorem tdiv_two_bounds (s : Int) :
    |((Int.tdiv s 2 : Int) : ℚ) - (s : ℚ) / 2| ≤ 1 / 2 := by
  obtain ⟨h1, h2⟩ := tdiv_two_remainder s
  have h4 : (-1 : ℚ) ≤ (s : ℚ) - 2 * ((Int.tdiv s 2 : Int) : ℚ) := by exact_mod_cast h1
  have h5 : (s : ℚ) - 2 * ((Int.tdiv s 2 : Int) : ℚ) ≤ 1 := by exact_mod_cast h2
  rw [abs_le]
  constructor <;> linarith

theorem tdiv_two_nearest (s n : Int) :
    |((Int.tdiv s 2 : Int) : ℚ) - (s : ℚ) / 2| ≤ |((n : Int) : ℚ) - (s : ℚ) / 2| := by
  obtain ⟨h1, h2⟩ := tdiv_two_remainder s
  have hint : |2 * Int.tdiv s 2 - s| ≤ |2 * n - s| := by
    rw [abs_le]
    rcases le_or_lt 0 (2 * n - s) with hn | hn
    · rw [abs_of_nonneg hn]; constructor <;> omega
    · rw [abs_of_neg hn]; constructor <;> omega
  have hq : |(2 : ℚ) * ((Int.tdiv s 2 : Int) : ℚ) - (s : ℚ)| ≤ |(2 : ℚ) * ((n : Int) : ℚ) - (s : ℚ)| := by
    exact_mod_cast hint
  have e1 : ((Int.tdiv s 2 : Int) : ℚ) - (s : ℚ) / 2
      = (2 * ((Int.tdiv s 2 : Int) : ℚ) - (s : ℚ)) / 2 := by ring
  have e2 : ((n : Int) : ℚ) - (s : ℚ) / 2 = (2 * ((n : Int) : ℚ) - (s : ℚ)) / 2 := by ring
  rw [e1, e2, abs_div, abs_div]
  exact div_le_div_of_nonneg_right hq (abs_nonneg _)

/-- C13: for every pixel box with integer bounds, the coordinates
`u = (xmin + xmax) / 2` and `v = (ymin + ymax) / 2` that `associateDepth`
computes in integer arithmetic, reports and samples the depth at, are within
1/2 of the exact centre of the box, hence a nearest integer pixel to it; for
bounds in the range of `int` the sums and quotients stay in that of `int64`
and `int`. -/
theorem C13_pixel_centre_is_nearest (bbox : BoundingBox) :
    |((pixelCenterU bbox : Int) : ℚ) - ((bbox.xmin : ℚ) + (bbox.xmax : ℚ)) / 2| ≤ 1 / 2 ∧
    |((pixelCenterV bbox : Int) : ℚ) - ((bbox.ymin : ℚ) + (bbox.ymax : ℚ)) / 2| ≤ 1 / 2 ∧
    (∀ n : Int, |((pixelCenterU bbox : Int) : ℚ) - ((bbox.xmin : ℚ) + (bbox.xmax : ℚ)) / 2|
        ≤ |(n : ℚ) - ((bbox.xmin : ℚ) + (bbox.xmax : ℚ)) / 2|) ∧
    (∀ n : Int, |((pixelCenterV bbox : Int) : ℚ) - ((bbox.ymin : ℚ) + (bbox.ymax : ℚ)) / 2|
        ≤ |(n : ℚ) - ((bbox.ymin : ℚ) + (bbox.ymax : ℚ)) / 2|) ∧
    (∀ (img : DepthImage) (c : Calibration) (msg : ObjDepth) (sample : Nat),
      img.at (pixelCenterV bbox) (pixelCenterU bbox) = some sample →
        (associateDepth img c bbox msg).bbox_center_u = pixelCenterU bbox ∧
        (associateDepth img c bbox msg).bbox_center_v = pixelCenterV bbox) ∧
    (-2147483648 ≤ bbox.xmin ∧ bbox.xmin ≤ 2147483647 ∧
      -2147483648 ≤ bbox.xmax ∧ bbox.xmax ≤ 2147483647 →
        -2147483648 ≤ pixelCenterU bbox ∧ pixelCenterU bbox ≤ 2147483647) ∧
    (-2147483648 ≤ bbox.ymin ∧ bbox.ymin ≤ 2147483647 ∧
      -2147483648 ≤ bbox.ymax ∧ bbox.ymax ≤ 2147483647 →
        -2147483648 ≤ pixelCenterV bbox ∧ pixelCenterV bbox ≤ 2147483647) := by
  have cu : ((bbox.xmin : ℚ) + (bbox.xmax : ℚ)) = ((bbox.xmin + bbox.xmax : Int) : ℚ) := by
    push_cast; ring
  have cv : ((bbox.ymin : ℚ) + (bbox.ymax : ℚ)) = ((bbox.ymin + bbox.ymax : Int) : ℚ) := by
    push_cast; ring
  refine ⟨?_, ?_, ?_, ?_, ?_, ?_, ?_⟩
  · rw [cu]; exact tdiv_two_bounds _
  · rw [cv]; exact tdiv_two_bounds _
  · intro n; rw [cu]; exact tdiv_two_nearest _ n
  · intro n; rw [cv]; exact tdiv_two_nearest _ n
  · intro img c msg sample h
    rw [associateDepth_of_sample img c bbox msg sample h]
    exact ⟨rfl, rfl⟩
  · intro h
    have := tdiv_two_remainder (bbox.xmin + bbox.xmax)
    unfold pixelCenterU
    omega
  · intro h
    have := tdiv_two_remainder (bbox.ymin + bbox.ymax)
    unfold pixelCenterV
    omega

/-- C13 at a sample: the box with bounds 300..340 and 220..260 is sampled at
(320, 240), which `associateDepth` reports. -/
theorem C13_pixel_centre_is_nearest_witness :
    (associateDepth (constDepth 480 640 1500) sampleCalibration sampleBBox
        ObjDepth.default).bbox_center_u = pixelCenterU sampleBBox ∧
    (associateDepth (constDepth 480 640 1500) sampleCalibration sampleBBox
        ObjDepth.default).bbox_center_v = pixelCenterV sampleBBox :=
  (C13_pixel_centre_is_nearest sampleBBox).2.2.2.2.1 (constDepth 480 640 1500)
    sampleCalibration ObjDepth.default 1500 sampleBBox_read

theorem truncQ_of_nonneg (q : ℚ) (hq : 0 ≤ q) : truncQ q = ⌊q⌋ := by
  unfold truncQ
  rw [if_pos hq]

theorem truncQ_nonneg (q : ℚ) (hq : 0 ≤ q) : 0 ≤ truncQ q := by
  rw [truncQ_of_nonneg q hq]
  exact Int.floor_nonneg.mpr hq

theorem truncQ_lt (q : ℚ) (W : Int) (hq : 0 ≤ q) (h : q < (W : ℚ)) : truncQ q < W := by
  rw [truncQ_of_nonneg q hq]
  exact Int.floor_lt.mpr h

theorem truncQ_le (q : ℚ) (W : Int) (hq : 0 ≤ q) (h : q ≤ (W : ℚ)) : truncQ q ≤ W := by
  rw [truncQ_of_nonneg q hq]
  have h1 : ((⌊q⌋ : Int) : ℚ) ≤ q := Int.floor_le q
  have h2 : ((⌊q⌋ : Int) : ℚ) ≤ (W : ℚ) := le_trans h1 h
  exact_mod_cast h2

/-- The pixel centre along one axis: for normalised edges `0 <= a < b <= 1`
and a frame extent `W >= 1`, the truncated products and their integer mean lie
in `0 .. W - 1`. -/
theorem centre_in_extent (a b : ℚ) (W : Int) (ha : 0 ≤ a) (hab : a < b) (hb : b ≤ 1)
    (hW : 1 ≤ W) :
    0 ≤ Int.tdiv (truncQ (a * (W : ℚ)) + truncQ (b * (W : ℚ))) 2 ∧
    Int.tdiv (truncQ (a * (W : ℚ)) + truncQ (b * (W : ℚ))) 2 < W := by
  have hWq : (1 : ℚ) ≤ (W : ℚ) := by exact_mod_cast hW
  have hW0 : (0 : ℚ) < (W : ℚ) := by linarith
  have h1 : 0 ≤ a * (W : ℚ) := mul_nonneg ha (le_of_lt hW0)
  have h2 : a * (W : ℚ) < (W : ℚ) := by nlinarith
  have h3 : 0 ≤ b * (W : ℚ) := mul_nonneg (by linarith) (le_of_lt hW0)
  have h4 : b * (W : ℚ) ≤ (W : ℚ) := by nlinarith
  have p1 := truncQ_nonneg _ h1
  have p2 := truncQ_lt _ W h1 h2
  have p3 := truncQ_nonneg _ h3
  have p4 := truncQ_le _ W h3 h4
  rw [Int.tdiv_eq_ediv (by omega) (by decide)]
  constructor <;> omega

theorem at_isSome_of_bounds (img : DepthImage) (v u : Int) (hv0 : 0 ≤ v)
    (hv : v < (img.rows : Int)) (hu0 : 0 ≤ u) (hu : u < (img.cols : Int)) :
    ∃ sample, img.at v u = some sample := by
  refine ⟨img.data v.toNat u.toNat, ?_⟩
  unfold DepthImage.at
  rw [if_pos ⟨hv0, hv, hu0, hu⟩]

/-- C14: for every box the extraction loop of `detectInThread` stores and
every frame size with `frameWidth_ >= 1` and `frameHeight_ >= 1`, the pixel
bounds `publishInThread` computes and the centre `(u, v)` that
`associateDepth` derives from them satisfy `0 <= u < frameWidth_` and
`0 <= v < frameHeight_` (exact arithmetic), so the depth sample at `(v, u)`
can be read from any depth image of the size of the frame. -/
theorem C14_pixel_centre_inside_frame (demoClasses_ : Nat) (dets : List detection)
    (roiBoxes_ : Nat → RosBox_) (i : Nat)
    (hi : i < (extractBoxes FloatArith.exact demoClasses_ dets roiBoxes_).count)
    (classLabels_ : List String) (frameWidth_ frameHeight_ : Int)
    (hW : 1 ≤ frameWidth_) (hH : 1 ≤ frameHeight_) (k : Nat) :
    0 ≤ pixelCenterU (toBoundingBox classLabels_ frameWidth_ frameHeight_ k
          ((extractBoxes FloatArith.exact demoClasses_ dets roiBoxes_).roiBoxes_ i)) ∧
    pixelCenterU (toBoundingBox classLabels_ frameWidth_ frameHeight_ k
          ((extractBoxes FloatArith.exact demoClasses_ dets roiBoxes_).roiBoxes_ i)) < frameWidth_ ∧
    0 ≤ pixelCenterV (toBoundingBox classLabels_ frameWidth_ frameHeight_ k
          ((extractBoxes FloatArith.exact demoClasses_ dets roiBoxes_).roiBoxes_ i)) ∧
    pixelCenterV (toBoundingBox classLabels_ frameWidth_ frameHeight_ k
          ((extractBoxes FloatArith.exact demoClasses_ dets roiBoxes_).roiBoxes_ i)) < frameHeight_ ∧
    (∀ img : DepthImage, (img.cols : Int) = frameWidth_ → (img.rows : Int) = frameHeight_ →
      ∃ sample, img.at
        (pixelCenterV (toBoundingBox classLabels_ frameWidth_ frameHeight_ k
          ((extractBoxes FloatArith.exact demoClasses_ dets roiBoxes_).roiBoxes_ i)))
        (pixelCenterU (toBoundingBox classLabels_ frameWidth_ frameHeight_ k
          ((extractBoxes FloatArith.exact demoClasses_ dets roiBoxes_).roiBoxes_ i))) = some sample) := by
  obtain ⟨a, b, c, e, f, g⟩ := extractBoxes_emitted_bounds FloatArith.exact 0 exact_within
    (by norm_num) demoClasses_ dets roiBoxes_ i hi
  simp only [mul_zero, neg_zero, add_zero] at a b c e
  have hu := centre_in_extent _ _ frameWidth_ a (by linarith) b hW
  have hv := centre_in_extent _ _ frameHeight_ c (by linarith) e hH
  refine ⟨hu.1, hu.2, hv.1, hv.2, ?_⟩
  intro img hc hr
  exact at_isSome_of_bounds img _ _ hv.1 (by rw [hr]; exact hv.2) hu.1 (by rw [hc]; exact hu.2)

/-- C14 at a sample: the box stored for the detection centred on the corner
(1, 0), in a 640 x 480 frame. -/
theorem C14_pixel_centre_inside_frame_witness :
    pixelCenterU (toBoundingBox ["person"] 640 480 0
          ((extractBoxes FloatArith.exact 1 [cornerDetection] zeroBoxes).roiBoxes_ 0)) < 640 ∧
    0 ≤ pixelCenterV (toBoundingBox ["person"] 640 480 0
          ((extractBoxes FloatArith.exact 1 [cornerDetection] zeroBoxes).roiBoxes_ 0)) :=
  ⟨(C14_pixel_centre_inside_frame 1 [cornerDetection] zeroBoxes 0
      (by rw [extractBoxes_corner_count]; decide) ["person"] 640 480 (by decide) (by decide)
      0).2.1,
   (C14_pixel_centre_inside_frame 1 [cornerDetection] zeroBoxes 0
      (by rw [extractBoxes_corner_count]; decide) ["person"] 640 480 (by decide) (by decide)
      0).2.2.1⟩

/-! ## Theorems: what `publishInThread` publishes -/

theorem sortInner_eq (box : RosBox_) (n : Nat) (acc : (Nat → List RosBox_) × (Nat → Int)) :
    (List.range n).foldl
        (fun (acc : (Nat → List RosBox_) × (Nat → Int)) (j : Nat) =>
          if box.Class = (j : Int) then
            (Function.update acc.1 j (acc.1 j ++ [box]),
             Function.update acc.2 j (acc.2 j + 1))
          else acc)
        acc
      = if 0 ≤ box.Class ∧ box.Class < (n : Int) then
          (Function.update acc.1 box.Class.toNat (acc.1 box.Class.toNat ++ [box]),
           Function.update acc.2 box.Class.toNat (acc.2 box.Class.toNat + 1))
        else acc := by
  induction n with
  | zero =>
    have h : ¬ (0 ≤ box.Class ∧ box.Class < ((0 : Nat) : Int)) := by
      intro h; have := h.1; have := h.2; omega
    rw [if_neg h]; rfl
  | succ n ih =>
    rw [List.range_succ, List.foldl_append, ih]
    simp only [List.foldl_cons, List.foldl_nil]
    by_cases hc : box.Class = (n : Int)
    · have h1 : ¬ (0 ≤ box.Class ∧ box.Class < (n : Int)) := by omega
      have h2 : 0 ≤ box.Class ∧ box.Class < ((n + 1 : Nat) : Int) := by
        push_cast; omega
      have h3 : box.Class.toNat = n := by omega
      rw [if_neg h1, if_pos hc, if_pos h2, h3]
    · by_cases h1 : 0 ≤ box.Class ∧ box.Class < (n : Int)
      · have h2 : 0 ≤ box.Class ∧ box.Class < ((n + 1 : Nat) : Int) := by
          push_cast; omega
        rw [if_pos h1, if_neg hc, if_pos h2]
      · have h2 : ¬ (0 ≤ box.Class ∧ box.Class < ((n + 1 : Nat) : Int)) := by
          push_cast; omega
        rw [if_neg h1, if_neg hc, if_neg h2]

theorem counterSum_update (n c : Nat) (f : Nat → Int) (hc : c < n) (h0 : 0 ≤ f c) :
    counterSum n (Function.update f c (f c + 1)) = counterSum n f + 1 := by
  unfold counterSum
  have hpt : ∀ j, (Function.update f c (f c + 1) j).toNat
      = (f j).toNat + (if j = c then 1 else 0) := by
    intro j
    by_cases hj : j = c
    · subst hj
      rw [Function.update_same, if_pos rfl]
      omega
    · rw [Function.update_noteq hj, if_neg hj]; rfl
  rw [Finset.sum_congr rfl (fun j _ => hpt j), Finset.sum_add_distrib,
    Finset.sum_ite_eq' (Finset.range n) c, if_pos (Finset.mem_range.mpr hc)]

theorem sortOuter_counters (numClasses_ : Nat) (roiBoxes_ : Nat → RosBox_) (is : List Nat)
    (hcls : ∀ i ∈ is, 0 ≤ (roiBoxes_ i).Class ∧ (roiBoxes_ i).Class < (numClasses_ : Int)) :
    ∀ acc : (Nat → List RosBox_) × (Nat → Int),
      (∀ j, j < numClasses_ → 0 ≤ acc.2 j) →
      (∀ j, j < numClasses_ → 0 ≤ (is.foldl
          (fun acc i =>
            (List.range numClasses_).foldl
              (fun (acc : (Nat → List RosBox_) × (Nat → Int)) (j : Nat) =>
                if (roiBoxes_ i).Class = (j : Int) then
                  (Function.update acc.1 j (acc.1 j ++ [roiBoxes_ i]),
                   Function.update acc.2 j (acc.2 j + 1))
                else acc)
              acc)
          acc).2 j) ∧
      counterSum numClasses_ (is.foldl
          (fun acc i =>
            (List.range numClasses_).foldl
              (fun (acc : (Nat → List RosBox_) × (Nat → Int)) (j : Nat) =>
                if (roiBoxes_ i).Class = (j : Int) then
                  (Function.update acc.1 j (acc.1 j ++ [roiBoxes_ i]),
                   Function.update acc.2 j (acc.2 j + 1))
                else acc)
              acc)
          acc).2 = counterSum numClasses_ acc.2 + is.length := by
  induction is with
  | nil => intro acc h0; exact ⟨h0, rfl⟩
  | cons i is ih =>
    intro acc h0
    have hi := hcls i (List.mem_cons_self i is)
    rw [List.foldl_cons, sortInner_eq (roiBoxes_ i) numClasses_ acc, if_pos hi]
    have hcn : (roiBoxes_ i).Class.toNat < numClasses_ := by omega
    have step := ih (fun k hk => hcls k (List.mem_cons_of_mem i hk))
      (Function.update acc.1 (roiBoxes_ i).Class.toNat
          (acc.1 (roiBoxes_ i).Class.toNat ++ [roiBoxes_ i]),
        Function.update acc.2 (roiBoxes_ i).Class.toNat (acc.2 (roiBoxes_ i).Class.toNat + 1))
      (by
        intro j hj
        by_cases hjc : j = (roiBoxes_ i).Class.toNat
        · subst hjc
          simp only [Function.update_same]
          have := h0 _ hcn
          omega
        · simp only [Function.update_noteq hjc]
          exact h0 j hj)
    refine ⟨step.1, ?_⟩
    rw [step.2]
    simp only []
    rw [counterSum_update numClasses_ _ acc.2 hcn (h0 _ hcn), List.length_cons]
    omega

theorem sortBoxes_counterSum (numClasses_ : Nat) (roiBoxes_ : Nat → RosBox_) (num : Nat)
    (rosBoxes_ : Nat → List RosBox_) (rosBoxCounter_ : Nat → Int)
    (hcls : ∀ i, i < num → 0 ≤ (roiBoxes_ i).Class ∧ (roiBoxes_ i).Class < (numClasses_ : Int))
    (h0 : ∀ j, j < numClasses_ → rosBoxCounter_ j = 0) :
    counterSum numClasses_ (sortBoxes numClasses_ roiBoxes_ num rosBoxes_ rosBoxCounter_).2
      = num := by
  have h := (sortOuter_counters numClasses_ roiBoxes_ (List.range num)
    (fun i hi => hcls i (List.mem_range.mp hi)) (rosBoxes_, rosBoxCounter_)
    (fun j hj => le_of_eq (h0 j hj).symm)).2
  have hz : counterSum numClasses_ rosBoxCounter_ = 0 := by
    unfold counterSum
    apply Finset.sum_eq_zero
    intro j hj
    rw [h0 j (Finset.mem_range.mp hj)]
    rfl
  unfold sortBoxes
  rw [h, hz, List.length_range, Nat.zero_add]

theorem classFold_spec (st : PublishState) (i : Nat) (js : List Nat) :
    ∀ acc : List BoundingBox × List ObjDepth × ObjDepth,
      (js.foldl
        (fun (acc : List BoundingBox × List ObjDepth × ObjDepth) j =>
          let boundingBox := toBoundingBox st.classLabels_ st.frameWidth_ st.frameHeight_ i
            ((st.rosBoxes_ i).getD j RosBox_.zero)
          let objDepthMsg := associateDepth st.depthImageCopy_ st.calib boundingBox acc.2.2
          (acc.1 ++ [boundingBox], acc.2.1 ++ [objDepthMsg], objDepthMsg))
        acc).1
        = acc.1 ++ js.map (fun j => toBoundingBox st.classLabels_ st.frameWidth_
            st.frameHeight_ i ((st.rosBoxes_ i).getD j RosBox_.zero)) ∧
      (js.foldl
        (fun (acc : List BoundingBox × List ObjDepth × ObjDepth) j =>
          let boundingBox := toBoundingBox st.classLabels_ st.frameWidth_ st.frameHeight_ i
            ((st.rosBoxes_ i).getD j RosBox_.zero)
          let objDepthMsg := associateDepth st.depthImageCopy_ st.calib boundingBox acc.2.2
          (acc.1 ++ [boundingBox], acc.2.1 ++ [objDepthMsg], objDepthMsg))
        acc).2.1.length = acc.2.1.length + js.length := by
  induction js with
  | nil => intro acc; simp
  | cons j js ih =>
    intro acc
    rw [List.foldl_cons]
    obtain ⟨h1, h2⟩ := ih
      (acc.1 ++ [toBoundingBox st.classLabels_ st.frameWidth_ st.frameHeight_ i
          ((st.rosBoxes_ i).getD j RosBox_.zero)],
       acc.2.1 ++ [associateDepth st.depthImageCopy_ st.calib
          (toBoundingBox st.classLabels_ st.frameWidth_ st.frameHeight_ i
            ((st.rosBoxes_ i).getD j RosBox_.zero)) acc.2.2],
       associateDepth st.depthImageCopy_ st.calib
          (toBoundingBox st.classLabels_ st.frameWidth_ st.frameHeight_ i
            ((st.rosBoxes_ i).getD j RosBox_.zero)) acc.2.2)
    refine ⟨?_, ?_⟩
    · rw [h1]; simp
    · rw [h2]; simp; omega

theorem classBoxes_fst (st : PublishState) (i : Nat) (boxes : List BoundingBox)
    (depths : List ObjDepth) :
    (classBoxes st i boxes depths).1 = boxes ++ classPixelBoxes st i :=
  (classFold_spec st i _ (boxes, depths, ObjDepth.default)).1

theorem classBoxes_snd_length (st : PublishState) (i : Nat) (boxes : List BoundingBox)
    (depths : List ObjDepth) :
    (classBoxes st i boxes depths).2.length = depths.length + (st.rosBoxCounter_ i).toNat := by
  have h := (classFold_spec st i (List.range (st.rosBoxCounter_ i).toNat)
    (boxes, depths, ObjDepth.default)).2
  rw [List.length_range] at h
  exact h

theorem classPixelBoxes_length (st : PublishState) (i : Nat) :
    (classPixelBoxes st i).length = (st.rosBoxCounter_ i).toNat := by
  simp [classPixelBoxes]

theorem collectFold_lengths (st : PublishState) (n : Nat)
    (acc : List BoundingBox × List ObjDepth) :
    ((List.range n).foldl
        (fun acc i => if st.rosBoxCounter_ i > 0 then classBoxes st i acc.1 acc.2 else acc)
        acc).1.length = acc.1.length + counterSum n st.rosBoxCounter_ ∧
    ((List.range n).foldl
        (fun acc i => if st.rosBoxCounter_ i > 0 then classBoxes st i acc.1 acc.2 else acc)
        acc).2.length = acc.2.length + counterSum n st.rosBoxCounter_ := by
  induction n with
  | zero => simp [counterSum]
  | succ n ih =>
    rw [List.range_succ, List.foldl_append]
    simp only [List.foldl_cons, List.foldl_nil]
    have hs : counterSum (n + 1) st.rosBoxCounter_
        = counterSum n st.rosBoxCounter_ + (st.rosBoxCounter_ n).toNat := by
      unfold counterSum; exact Finset.sum_range_succ _ n
    by_cases hp : st.rosBoxCounter_ n > 0
    · rw [if_pos hp, classBoxes_fst, classBoxes_snd_length, List.length_append,
        classPixelBoxes_length, ih.1, ih.2, hs]
      constructor <;> omega
    · have hz : (st.rosBoxCounter_ n).toNat = 0 := by omega
      rw [if_neg hp, ih.1, ih.2, hs, hz]
      constructor <;> rfl

theorem collectBoxes_lengths (st : PublishState) :
    (collectBoxes st).1.length
      = st.boundingBoxesResults_.length + counterSum st.numClasses_ st.rosBoxCounter_ ∧
    (collectBoxes st).2.length
      = st.objDepths.length + counterSum st.numClasses_ st.rosBoxCounter_ :=
  collectFold_lengths st st.numClasses_ (st.boundingBoxesResults_, st.objDepths)

theorem publishInThread_of_num_in_range (checking : Bool) (st : PublishState)
    (h : (st.roiBoxes_ 0).num > 0 ∧ (st.roiBoxes_ 0).num ≤ 100) :
    (publishInThread checking st).1 =
      [Published.objectCount (st.roiBoxes_ 0).num,
       Published.boundingBoxes (collectBoxes (sortedState st)).1
         (st.headerBuff_ ((st.buffIndex_ + 1) % 3)),
       Published.frameDepth st.calib.depth_frame_ (st.roiBoxes_ 0).num
         (collectBoxes (sortedState st)).2]
      ++ (if checking then
            [Published.actionResult (st.buffId_ 0) (collectBoxes (sortedState st)).1]
          else []) := by
  unfold publishInThread
  simp only [if_pos h]
  rfl

theorem publishInThread_of_num_out_of_range (checking : Bool) (st : PublishState)
    (h : ¬ ((st.roiBoxes_ 0).num > 0 ∧ (st.roiBoxes_ 0).num ≤ 100)) :
    (publishInThread checking st).1 = Published.objectCount 0 ::
      (if checking then [Published.actionResult (st.buffId_ 0) st.boundingBoxesResults_]
       else []) := by
  unfold publishInThread
  simp only [if_neg h]
  rfl

theorem publishInThread_state (checking : Bool) (st : PublishState) :
    (publishInThread checking st).2.boundingBoxesResults_ = [] ∧
    (∀ j, j < (publishInThread checking st).2.numClasses_ →
      (publishInThread checking st).2.rosBoxes_ j = [] ∧
      (publishInThread checking st).2.rosBoxCounter_ j = 0) ∧
    (st.objDepths = [] → (publishInThread checking st).2.objDepths = []) := by
  unfold publishInThread
  by_cases h : (st.roiBoxes_ 0).num > 0 ∧ (st.roiBoxes_ 0).num ≤ 100
  · simp only [if_pos h, clearBoxes]
    refine ⟨trivial, ?_, fun _ => trivial⟩
    intro j hj
    have hj' : j < st.numClasses_ := hj
    simp [hj']
  · simp only [if_neg h, clearBoxes]
    refine ⟨trivial, ?_, fun h => h⟩
    intro j hj
    have hj' : j < st.numClasses_ := hj
    simp [hj']

theorem collectBoxes_sorted_lengths (st : PublishState) (hclean : st.Clean)
    (hcls : ∀ i, i < (st.roiBoxes_ 0).num.toNat →
      0 ≤ (st.roiBoxes_ i).Class ∧ (st.roiBoxes_ i).Class < (st.numClasses_ : Int)) :
    (collectBoxes (sortedState st)).1.length = (st.roiBoxes_ 0).num.toNat ∧
    (collectBoxes (sortedState st)).2.length = (st.roiBoxes_ 0).num.toNat := by
  obtain ⟨hc, hb, hd⟩ := hclean
  have hsum : counterSum (sortedState st).numClasses_ (sortedState st).rosBoxCounter_
      = (st.roiBoxes_ 0).num.toNat :=
    sortBoxes_counterSum st.numClasses_ st.roiBoxes_ _ st.rosBoxes_ st.rosBoxCounter_ hcls
      (fun j hj => (hc j hj).2)
  obtain ⟨l1, l2⟩ := collectBoxes_lengths (sortedState st)
  have e1 : (sortedState st).boundingBoxesResults_ = [] := hb
  have e2 : (sortedState st).objDepths = [] := hd
  rw [l1, l2, hsum, e1, e2]
  simp

/-- C15: from a state with nothing pending, with `num = roiBoxes_[0].num`:
when `1 <= num <= 100` and every box class is below `numClasses_`,
`publishInThread` publishes `count = num`, a box message with exactly `num`
bounding boxes and a depth message with `objCount = num` and `num` estimates;
otherwise (also when `num > 100`) it publishes `count = 0` and neither
message. The published count always lies in [0, 100], and the state is left
with nothing pending. -/
theorem C15_published_count_and_boxes (checking : Bool) (st : PublishState)
    (hclean : st.Clean) :
    ((1 ≤ (st.roiBoxes_ 0).num ∧ (st.roiBoxes_ 0).num ≤ 100) →
      (∀ i, i < (st.roiBoxes_ 0).num.toNat →
        0 ≤ (st.roiBoxes_ i).Class ∧ (st.roiBoxes_ i).Class < (st.numClasses_ : Int)) →
      ∃ (bs : List BoundingBox) (ds : List ObjDepth),
        (publishInThread checking st).1 =
          [Published.objectCount (st.roiBoxes_ 0).num,
           Published.boundingBoxes bs (st.headerBuff_ ((st.buffIndex_ + 1) % 3)),
           Published.frameDepth st.calib.depth_frame_ (st.roiBoxes_ 0).num ds]
          ++ (if checking then [Published.actionResult (st.buffId_ 0) bs] else []) ∧
        (bs.length : Int) = (st.roiBoxes_ 0).num ∧
        (ds.length : Int) = (st.roiBoxes_ 0).num) ∧
    (¬ (1 ≤ (st.roiBoxes_ 0).num ∧ (st.roiBoxes_ 0).num ≤ 100) →
      (publishInThread checking st).1 = Published.objectCount 0 ::
        (if checking then [Published.actionResult (st.buffId_ 0) []] else [])) ∧
    (∀ n, Published.objectCount n ∈ (publishInThread checking st).1 → 0 ≤ n ∧ n ≤ 100) ∧
    (publishInThread checking st).2.Clean := by
  have hb : st.boundingBoxesResults_ = [] := hclean.2.1
  refine ⟨?_, ?_, ?_, ?_⟩
  · intro hnum hcls
    have hr : (st.roiBoxes_ 0).num > 0 ∧ (st.roiBoxes_ 0).num ≤ 100 := ⟨by omega, hnum.2⟩
    obtain ⟨l1, l2⟩ := collectBoxes_sorted_lengths st hclean hcls
    refine ⟨(collectBoxes (sortedState st)).1, (collectBoxes (sortedState st)).2,
      publishInThread_of_num_in_range checking st hr, ?_, ?_⟩
    · rw [l1]; omega
    · rw [l2]; omega
  · intro hnum
    have hr : ¬ ((st.roiBoxes_ 0).num > 0 ∧ (st.roiBoxes_ 0).num ≤ 100) := by omega
    rw [publishInThread_of_num_out_of_range checking st hr, hb]
  · intro n hn
    by_cases hr : (st.roiBoxes_ 0).num > 0 ∧ (st.roiBoxes_ 0).num ≤ 100
    · rw [publishInThread_of_num_in_range checking st hr] at hn
      cases checking with
      | false =>
        simp at hn
        omega
      | true =>
        simp at hn
        omega
    · rw [publishInThread_of_num_out_of_range checking st hr] at hn
      cases checking with
      | false =>
        simp at hn
        omega
      | true =>
        simp at hn
        omega
  · obtain ⟨s1, s2, s3⟩ := publishInThread_state checking st
    exact ⟨s2, s1, s3 hclean.2.2⟩

theorem oneBoxState_clean : oneBoxState.Clean :=
  ⟨fun _ _ => ⟨rfl, rfl⟩, rfl, rfl⟩

/-- C15 at a sample: one extracted box of class 1 with two classes configured;
one bounding box and one depth estimate are published with `count = 1`. -/
theorem C15_published_count_and_boxes_witness :
    ∃ (bs : List BoundingBox) (ds : List ObjDepth),
      (publishInThread true oneBoxState).1 =
        [Published.objectCount (oneBoxState.roiBoxes_ 0).num,
         Published.boundingBoxes bs (oneBoxState.headerBuff_ ((oneBoxState.buffIndex_ + 1) % 3)),
         Published.frameDepth oneBoxState.calib.depth_frame_ (oneBoxState.roiBoxes_ 0).num ds]
        ++ (if true then [Published.actionResult (oneBoxState.buffId_ 0) bs] else []) ∧
      (bs.length : Int) = (oneBoxState.roiBoxes_ 0).num ∧
      (ds.length : Int) = (oneBoxState.roiBoxes_ 0).num :=
  (C15_published_count_and_boxes true oneBoxState oneBoxState_clean).1 (by decide)
    (by
      intro i _
      show (0 : Int) ≤ 1 ∧ (1 : Int) < ((2 : Nat) : Int)
      decide)

/-! ## Theorems: a depth sample that cannot be read -/

theorem toBoundingBox_upperLeft :
    toBoundingBox ["person", "car"] 640 480 0 upperLeftBox = upperLeftPixelBox := by
  norm_num [toBoundingBox, upperLeftBox, upperLeftPixelBox, truncQ]

theorem toBoundingBox_lowerRight :
    toBoundingBox ["person", "car"] 640 480 0 lowerRightBox = lowerRightPixelBox := by
  norm_num [toBoundingBox, lowerRightBox, lowerRightPixelBox, truncQ]

theorem collectBoxes_twoBoxState :
    collectBoxes (sortedState twoBoxState) =
      ([toBoundingBox ["person", "car"] 640 480 0 upperLeftBox,
        toBoundingBox ["person", "car"] 640 480 0 lowerRightBox],
       [associateDepth (constDepth 240 320 1500) sampleCalibration
          (toBoundingBox ["person", "car"] 640 480 0 upperLeftBox) ObjDepth.default,
        associateDepth (constDepth 240 320 1500) sampleCalibration
          (toBoundingBox ["person", "car"] 640 480 0 lowerRightBox)
          (associateDepth (constDepth 240 320 1500) sampleCalibration
            (toBoundingBox ["person", "car"] 640 480 0 upperLeftBox) ObjDepth.default)]) := by
  rfl

theorem upperLeft_read :
    (constDepth 240 320 1500).at (pixelCenterV upperLeftPixelBox)
      (pixelCenterU upperLeftPixelBox) = some 1500 := by
  decide

theorem lowerRight_read :
    (constDepth 240 320 1500).at (pixelCenterV lowerRightPixelBox)
      (pixelCenterU lowerRightPixelBox) = none := by
  decide

theorem associateDepth_upperLeft :
    associateDepth (constDepth 240 320 1500) sampleCalibration upperLeftPixelBox
      ObjDepth.default = upperLeftEstimate := by
  rw [associateDepth_of_sample _ _ _ _ 1500 upperLeft_read]
  have hu : pixelCenterU upperLeftPixelBox = 160 := by decide
  have hv : pixelCenterV upperLeftPixelBox = 120 := by decide
  rw [hu, hv]
  norm_num [upperLeftEstimate, upperLeftPixelBox, sampleCalibration, Fl.sub, Fl.ofInt, Fl.mul,
    Fl.div, Fl.round, Fl.roundQ]
  have c1 : ⌈-(801 / 2 : ℚ)⌉ = -400 := by
    rw [Int.ceil_eq_iff]; norm_num
  have c2 : ⌈-(601 / 2 : ℚ)⌉ = -300 := by
    rw [Int.ceil_eq_iff]; norm_num
  rw [c1, c2]
  norm_num

theorem collectBoxes_twoBoxStateUnchecked :
    collectBoxes (sortedState twoBoxStateUnchecked) =
      ([toBoundingBox ["person", "car"] 640 480 0 upperLeftBox,
        toBoundingBox ["person", "car"] 640 480 0 lowerRightBox],
       [associateDepth (uncheckedDepth 240 320 1500 3000) sampleCalibration
          (toBoundingBox ["person", "car"] 640 480 0 upperLeftBox) ObjDepth.default,
        associateDepth (uncheckedDepth 240 320 1500 3000) sampleCalibration
          (toBoundingBox ["person", "car"] 640 480 0 lowerRightBox)
          (associateDepth (uncheckedDepth 240 320 1500 3000) sampleCalibration
            (toBoundingBox ["person", "car"] 640 480 0 upperLeftBox) ObjDepth.default)]) := by
  rfl

theorem upperLeft_read_unchecked :
    (uncheckedDepth 240 320 1500 3000).at (pixelCenterV upperLeftPixelBox)
      (pixelCenterU upperLeftPixelBox) = some 1500 := by
  decide

theorem lowerRight_read_unchecked :
    (uncheckedDepth 240 320 1500 3000).at (pixelCenterV lowerRightPixelBox)
      (pixelCenterU lowerRightPixelBox) = some 3000 := by
  decide

theorem associateDepth_upperLeft_unchecked :
    associateDepth (uncheckedDepth 240 320 1500 3000) sampleCalibration upperLeftPixelBox
      ObjDepth.default = upperLeftEstimate := by
  rw [associateDepth_of_sample _ _ _ _ 1500 upperLeft_read_unchecked,
    ← associateDepth_upperLeft, associateDepth_of_sample _ _ _ _ 1500 upperLeft_read]

theorem associateDepth_lowerRight_unchecked (msg : ObjDepth) :
    associateDepth (uncheckedDepth 240 320 1500 3000) sampleCalibration lowerRightPixelBox
      msg = lowerRightEstimate := by
  rw [associateDepth_of_sample _ _ _ _ 3000 lowerRight_read_unchecked]
  have hu : pixelCenterU lowerRightPixelBox = 480 := by decide
  have hv : pixelCenterV lowerRightPixelBox = 360 := by decide
  rw [hu, hv]
  norm_num [lowerRightEstimate, lowerRightPixelBox, sampleCalibration, Fl.sub, Fl.ofInt, Fl.mul,
    Fl.div, Fl.round, Fl.roundQ]

/-- C11: evaluation of the code on an input where the claim fails. Two boxes
of class 0 in a 640 x 480 frame, a depth image of 320 x 240 samples; the
centre (480, 360) of the second box is outside the depth image. Both 2D boxes
are published. When the access raises, the second estimate is the estimate of
the first box once more (centre (160, 120), depth 1.5); when the access is
unchecked and finds 3000, it is an ordinary estimate for depth 3. No marker
of invalidity is set in either case. -/
theorem C11_unreadable_sample_gets_no_marker :
    (publishInThread false twoBoxState).1 =
      [Published.objectCount 2,
       Published.boundingBoxes [upperLeftPixelBox, lowerRightPixelBox] 100,
       Published.frameDepth "camera_color_optical_frame" 2
         [upperLeftEstimate, upperLeftEstimate]] ∧
    (publishInThread false twoBoxStateUnchecked).1 =
      [Published.objectCount 2,
       Published.boundingBoxes [upperLeftPixelBox, lowerRightPixelBox] 100,
       Published.frameDepth "camera_color_optical_frame" 2
         [upperLeftEstimate, lowerRightEstimate]] ∧
    pixelCenterU lowerRightPixelBox = 480 ∧ pixelCenterV lowerRightPixelBox = 360 ∧
    twoBoxState.depthImageCopy_.cols = 320 ∧ twoBoxState.depthImageCopy_.rows = 240 ∧
    upperLeftEstimate.bbox_center_u = 160 ∧ upperLeftEstimate.bbox_center_v = 120 := by
  refine ⟨?_, ?_, by decide, by decide, rfl, rfl, rfl, rfl⟩
  · have h2 : associateDepth (constDepth 240 320 1500) sampleCalibration lowerRightPixelBox
        upperLeftEstimate = upperLeftEstimate := by
      unfold associateDepth
      simp only [lowerRight_read]
    rw [publishInThread_of_num_in_range false twoBoxState (by decide), collectBoxes_twoBoxState,
      toBoundingBox_upperLeft, toBoundingBox_lowerRight, associateDepth_upperLeft, h2]
    rfl
  · rw [publishInThread_of_num_in_range false twoBoxStateUnchecked (by decide),
      collectBoxes_twoBoxStateUnchecked, toBoundingBox_upperLeft, toBoundingBox_lowerRight,
      associateDepth_upperLeft_unchecked, associateDepth_lowerRight_unchecked]
    rfl

end darknet_ros
